import Mathlib

/-!
Verification development for the candidate-tracking repository
(`frontend/scraping_service.py`, `frontend/ashby_sync_service.py`,
`frontend/ashby_client.py`).

The Python services are shallowly embedded as pure Lean functions over an
explicit relational-store state (`DB`).  SQL tables become lists of row
structures, `SERIAL` columns become explicit counters, timestamps become
natural numbers (minutes since an arbitrary epoch; the calendar date of a
timestamp is the timestamp divided by 1440), and outbound HTTP calls become
explicit oracle arguments.  Fallible code returns `Except` or an explicit
outcome type.  JSON dictionaries are embedded as structures with `Option`
fields where the code distinguishes a missing key.
-/

namespace TalentMap

/-! ## String helpers (Python `str` operations on `List Char`) -/

/-- Python `s.rstrip('/')`: remove every trailing `'/'` character. -/
def dropTrailingSlashes (l : List Char) : List Char :=
  (l.reverse.dropWhile (fun c => c = '/')).reverse

/-- Python `s.split('?')[0]`: the segment before the first `'?'`. -/
def beforeQuery (l : List Char) : List Char :=
  l.takeWhile (fun c => c ≠ '?')

/-- Python `s.strip()`: remove leading and trailing whitespace. -/
def pyStrip (l : List Char) : List Char :=
  ((l.dropWhile Char.isWhitespace).reverse.dropWhile Char.isWhitespace).reverse

/-- Python `needle in haystack` for strings (contiguous substring test). -/
def containsSub (haystack needle : List Char) : Bool :=
  match haystack with
  | [] => needle.isEmpty
  | _ :: tl => needle.isPrefixOf haystack || containsSub tl needle

/-- Python truthiness of an optional string (`None` and `""` are falsy). -/
def truthyOpt (s : Option String) : Bool :=
  match s with
  | none => false
  | some v => v ≠ ""

/-! ## `LinkedInScraper.normalize_linkedin_url` (scraping_service.py lines 64-73)

```python
url = url.rstrip('/').split('?')[0]
if url.startswith('linkedin.com'):
    url = f'https://www.{url}'
return url
```
-/

def normalize_linkedin_url (url : String) : String :=
  let u := beforeQuery (dropTrailingSlashes url.data)
  if "linkedin.com".data.isPrefixOf u then ⟨"https://www.".data ++ u⟩ else ⟨u⟩

/-! ## Profile documents returned by the LinkedIn profile provider -/

/-- A `{year, month, day}` component dictionary; `month`/`day` default to 1
via `date_dict.get('month', 1)` / `date_dict.get('day', 1)`. -/
structure DateComponents where
  year : Option Nat := none
  month : Nat := 1
  day : Nat := 1
deriving DecidableEq, Repr

structure PyDate where
  year : Nat
  month : Nat
  day : Nat
deriving DecidableEq, Repr

def isLeapYear (y : Nat) : Bool :=
  (y % 4 == 0 && y % 100 != 0) || y % 400 == 0

def daysInMonth (y m : Nat) : Nat :=
  if m = 2 then (if isLeapYear y then 29 else 28)
  else if m = 4 ∨ m = 6 ∨ m = 9 ∨ m = 11 then 30
  else 31

/-- `LinkedInScraper.components_to_date` (scraping_service.py lines 115-130):
`None`/non-dict input gives `None` (modelled as the outer `none`), a falsy
year gives `None`, and `datetime(year, month, day)` raising `ValueError`
(out-of-range components, per Python's `datetime` validation) gives `None`. -/
def components_to_date (d : Option DateComponents) : Option PyDate :=
  match d with
  | none => none
  | some dc =>
    match dc.year with
    | none => none
    | some y =>
      if y = 0 then none
      else if 1 ≤ y ∧ y ≤ 9999 ∧ 1 ≤ dc.month ∧ dc.month ≤ 12 ∧
              1 ≤ dc.day ∧ dc.day ≤ daysInMonth y dc.month then
        some ⟨y, dc.month, dc.day⟩
      else none

structure GeoInfo where
  country : Option String := none
  city : Option String := none
  countryCode : Option String := none
deriving DecidableEq, Repr

structure Education where
  schoolName : Option String := none
  schoolId : Option String := none
  fieldOfStudy : Option String := none
  degree : Option String := none
  description : Option String := none
  activities : Option String := none
  start : Option DateComponents := none
  «end» : Option DateComponents := none
deriving DecidableEq, Repr

structure PositionEntry where
  companyId : Option Nat := none
  companyName : Option String := none
  title : Option String := none
  location : Option String := none
  description : Option String := none
  employmentType : Option String := none
  start : Option DateComponents := none
  «end» : Option DateComponents := none
deriving DecidableEq, Repr

structure Skill where
  name : Option String := none
deriving DecidableEq, Repr

structure Honor where
  title : Option String := none
deriving DecidableEq, Repr

/-- One profile document from the provider.  `geo := none` models a present
but non-dict value (skipped by the `isinstance` guard); a missing `geo` key
is `some {}` (Python substitutes `{}`, which is a dict of empty values).
A missing/non-list `educations`/`position`/`skills`/`honors` key behaves
exactly like the empty list, so all four are plain lists. -/
structure ProfileData where
  id : Option String := none
  firstName : Option String := none
  lastName : Option String := none
  headline : Option String := none
  geo : Option GeoInfo := some {}
  educations : List Education := []
  position : List PositionEntry := []
  skills : List Skill := []
  honors : List Honor := []
deriving DecidableEq, Repr

/-! ## Candidates returned by the Ashby candidate API -/

structure SocialLink where
  /-- the JSON field `type` -/
  linkType : Option String := none
  url : Option String := none
deriving DecidableEq, Repr

structure EmailAddress where
  value : Option String := none
deriving DecidableEq, Repr

structure AshbyTag where
  title : Option String := none
deriving DecidableEq, Repr

structure AshbyLocation where
  locationSummary : Option String := none
deriving DecidableEq, Repr

/-- One candidate record from `candidate.list`.  `primaryEmailAddress := none`
models both a missing key and the falsy `{}` default. -/
structure Candidate where
  id : Option String := none
  name : Option String := none
  primaryEmailAddress : Option EmailAddress := none
  socialLinks : List SocialLink := []
  tags : List AshbyTag := []
  position : Option String := none
  company : Option String := none
  school : Option String := none
  primaryLocation : Option AshbyLocation := none
deriving DecidableEq, Repr

/-! ## Relational store -/

structure PersonRow where
  user_id : Nat
  canonical_linkedin_url : Option String := none
  linkedin_details : Option ProfileData := none
  last_scraped_at : Option Nat := none
  scrape_status : String := "pending"
deriving DecidableEq, Repr

structure LinkedinInfoRow where
  user_id : Nat
  /-- the LinkedIn profile id (primary key of LinkedinInfo) -/
  id : String
  firstName : String
  lastName : String
  headline : String
deriving DecidableEq, Repr

structure GeoRow where
  user_id : Nat
  country : String
  city : String
  countryCode : String
deriving DecidableEq, Repr

structure EducationRow where
  user_id : Nat
  schoolName : String
  schoolId : String
  fieldOfStudy : String
  degree : String
  startDate : Option PyDate
  endDate : Option PyDate
  description : String
  activities : String
deriving DecidableEq, Repr

structure PositionRow where
  user_id : Nat
  companyId : Nat
  companyName : String
  title : String
  location : String
  description : String
  employmentType : String
  startDate : Option PyDate
  endDate : Option PyDate
deriving DecidableEq, Repr

structure SkillRow where
  user_id : Nat
  name : String
deriving DecidableEq, Repr

structure HonorRow where
  user_id : Nat
  title : String
deriving DecidableEq, Repr

/-- `metadata_schema` document created with the Ashby source. -/
structure SourceSchema where
  sync_enabled : Bool
  last_full_sync : Option Nat
  candidate_count : Nat
deriving DecidableEq, Repr

structure SourceRow where
  id : Nat
  name : String
  description : String
  source_type : String
  metadata_schema : Option SourceSchema := none
deriving DecidableEq, Repr

/-- `extracted_fields` sub-document of a membership's `source_metadata`
(`AshbyClient.format_candidate_for_storage`). -/
structure ExtractedFields where
  name : String
  email : Option String
  linkedin_url : Option String
  position : Option String
  company : Option String
  school : Option String
  tags : List (Option String)
  location : Option String
deriving DecidableEq, Repr

/-- `source_metadata` document written by the Ashby sync
(`AshbyClient.format_candidate_for_storage`). -/
structure SourceMetadata where
  ashby_candidate_id : Option String
  ashby_data : Candidate
  last_synced : Nat
  sync_status : String
  extracted_fields : ExtractedFields
deriving DecidableEq, Repr

structure PeopleSourceRow where
  id : Nat
  user_id : Nat
  source_id : Nat
  linkedin_url : String
  /-- `none` models a membership whose metadata document carries no
  `ashby_candidate_id` key (e.g. manual-list memberships). -/
  source_metadata : Option SourceMetadata := none
deriving DecidableEq, Repr

structure IntegrationRow where
  id : Nat
  api_key_encrypted : String
  sync_token : Option String := none
  last_sync_at : Option Nat := none
  is_active : Bool
  created_at : Nat
deriving DecidableEq, Repr

/-- One `ashby_sync_jobs` row.  The column defaults used by
`create_sync_job` (status `running`, `started_at` = current timestamp, zero
counters) are modelled from the spec: the DDL file
`create_ashby_tables.sql` referenced by the setup script is not among the
sources; spec section 3 gives the SyncJob lifecycle `running` →
`completed`|`failed` with running counts and timestamps. -/
structure SyncJobRow where
  id : Nat
  integration_id : Nat
  job_type : String
  status : String
  started_at : Nat
  completed_at : Option Nat := none
  candidates_processed : Nat := 0
  candidates_created : Nat := 0
  candidates_updated : Nat := 0
  candidates_skipped : Nat := 0
  error_message : Option String := none
deriving DecidableEq, Repr

/-- The whole relational store.  `next_*` counters model `SERIAL` columns. -/
structure DB where
  people : List PersonRow := []
  linkedin_info : List LinkedinInfoRow := []
  geo : List GeoRow := []
  educations : List EducationRow := []
  positions : List PositionRow := []
  skills : List SkillRow := []
  honors : List HonorRow := []
  people_sources : List PeopleSourceRow := []
  sources : List SourceRow := []
  ashby_integrations : List IntegrationRow := []
  ashby_sync_jobs : List SyncJobRow := []
  next_user_id : Nat := 1
  next_ps_id : Nat := 1
  next_source_id : Nat := 1
  next_job_id : Nat := 1
deriving DecidableEq, Repr

/-! ## `LinkedInScraper` operations (scraping_service.py) -/

def MAX_AGE_DAYS : Nat := 30

/-- Python `timestamp.date()`: timestamps are minutes, a date is a day index. -/
def dateOf (t : Nat) : Nat := t / 1440

/-- Row filter of the `is_recently_scraped` query: holds the url and has a
non-null `last_scraped_at`.  The refresh STATUS is deliberately absent,
mirroring the SQL `WHERE` clause. -/
def recently_scraped_row (linkedin_url : String) (p : PersonRow) : Bool :=
  decide (p.canonical_linkedin_url = some linkedin_url ∧ p.last_scraped_at ≠ none)

/-- `LinkedInScraper.is_recently_scraped` (lines 75-96).  `fetchone` on the
unordered query is modelled as the first matching row.  `age.days <= 30`
uses truncated `Nat` subtraction, which agrees with Python's signed date
difference on the `≤ 30` test (a negative age also passes it). -/
def is_recently_scraped (db : DB) (linkedin_url : String) (now : Nat) : Bool :=
  match db.people.find? (recently_scraped_row linkedin_url) with
  | none => false
  | some p =>
    match p.last_scraped_at with
    | none => false
    | some t => dateOf now - dateOf t ≤ MAX_AGE_DAYS

inductive ScrapeErr where
  /-- Python `ValueError` raised by `insert_profile_data` -/
  | valueError (msg : String)
  /-- `psycopg2.IntegrityError`: storage-layer uniqueness violation -/
  | integrityError
deriving DecidableEq, Repr

def ScrapeErr.message : ScrapeErr → String
  | .valueError m => m
  | .integrityError => "IntegrityError"

/-- Modelled from the spec (section 3 / section 6): the storage layer enforces a
uniqueness constraint on non-null `People.canonical_linkedin_url` values
(the DDL adding these columns is not among the sources).  True when some row
other than `excluded` already holds `url`. -/
def urlTakenByOther (people : List PersonRow) (url : String) (excluded : Nat) : Bool :=
  people.any (fun p => decide (p.user_id ≠ excluded ∧ p.canonical_linkedin_url = some url))

/-- Row filter of `People` by a canonical identity key. -/
def holds_key (url : String) (p : PersonRow) : Bool :=
  decide (p.canonical_linkedin_url = some url)

/-- Row filter of the existing-person lookup in `insert_profile_data`
(lines 179-184): holds either the original or the normalized URL. -/
def person_url_match (linkedin_url normalized_url : String) (p : PersonRow) : Bool :=
  decide (p.canonical_linkedin_url = some linkedin_url ∨
    p.canonical_linkedin_url = some normalized_url)

/-- The `Educations` row built for one entry in step 5 of
`insert_profile_data` (lines 249-273). -/
def eduRowOf (user_id : Nat) (e : Education) : EducationRow :=
  { user_id := user_id, schoolName := e.schoolName.getD "",
    schoolId := e.schoolId.getD "", fieldOfStudy := e.fieldOfStudy.getD "",
    degree := e.degree.getD "", startDate := components_to_date e.start,
    endDate := components_to_date e.«end», description := e.description.getD "",
    activities := e.activities.getD "" }

/-- The `Positions` row built for one entry in step 6 of
`insert_profile_data` (lines 275-299). -/
def posRowOf (user_id : Nat) (po : PositionEntry) : PositionRow :=
  { user_id := user_id, companyId := po.companyId.getD 0,
    companyName := po.companyName.getD "", title := po.title.getD "",
    location := po.location.getD "", description := po.description.getD "",
    employmentType := po.employmentType.getD "",
    startDate := components_to_date po.start,
    endDate := components_to_date po.«end» }

/-- The upsert shape used for `LinkedinInfo` (check by id then UPDATE else
INSERT, lines 215-231) and `Geo` (`ON CONFLICT (user_id) DO UPDATE`,
lines 240-247): when a row matches, rewrite every row through `f`,
otherwise append `newRow`. -/
def upsertList {α : Type} (keyMatch : α → Bool) (f : α → α) (newRow : α)
    (rows : List α) : List α :=
  if rows.any keyMatch then rows.map f else rows ++ [newRow]

/-- The `UPDATE People ...` of lines 189-196 applied to one row. -/
def markScraped (pd : ProfileData) (now : Nat) (normalized_url : String)
    (uid : Nat) (p : PersonRow) : PersonRow :=
  if p.user_id = uid then
    { p with linkedin_details := some pd, last_scraped_at := some now,
             scrape_status := "scraped",
             canonical_linkedin_url := some normalized_url }
  else p

/-- The person inserted by lines 200-206. -/
def scrapedNewPerson (pd : ProfileData) (now : Nat) (normalized_url : String)
    (uid : Nat) : PersonRow :=
  { user_id := uid, canonical_linkedin_url := some normalized_url,
    linkedin_details := some pd, last_scraped_at := some now,
    scrape_status := "scraped" }

/-- The `Geo` row built in step 4 of `insert_profile_data` (lines 234-247). -/
def geoRowOf (user_id : Nat) (g : GeoInfo) : GeoRow :=
  { user_id := user_id, country := g.country.getD "", city := g.city.getD "",
    countryCode := g.countryCode.getD "" }

/-- Steps 3-9 of `insert_profile_data` (lines 210-343): the LinkedinInfo and
Geo upserts, the delete-all-then-reinsert of the four attribute tables, and
the PeopleSources URL normalization, all for the resolved `user_id`. -/
def profile_attribute_writes (pd : ProfileData)
    (linkedin_url normalized_url : String) (source_id : Option Nat)
    (_now user_id : Nat) (db1 : DB) : DB :=
    let first_name := pd.firstName.getD ""
    let last_name := pd.lastName.getD ""
    let headline := pd.headline.getD ""
    let pid := pd.id.getD ""
    let newInfoRow : LinkedinInfoRow :=
      { user_id := user_id, id := pid, firstName := first_name,
        lastName := last_name, headline := headline }
    let newInfo : List LinkedinInfoRow :=
      upsertList (fun li => decide (li.id = pid))
        (fun li =>
          if li.id = pid then
            { li with firstName := first_name, lastName := last_name,
                      headline := headline, user_id := user_id }
          else li)
        newInfoRow db1.linkedin_info
    let db2 := { db1 with linkedin_info := newInfo }
    let db3 :=
      match pd.geo with
      | some g =>
        let row : GeoRow := geoRowOf user_id g
        let newGeo : List GeoRow :=
          upsertList (fun r => decide (r.user_id = user_id))
            (fun (r : GeoRow) => if r.user_id = user_id then row else r)
            row db2.geo
        { db2 with geo := newGeo }
      | none => db2
    let newEdus : List EducationRow :=
      db3.educations.filter (fun r => decide (r.user_id ≠ user_id)) ++
        pd.educations.map (eduRowOf user_id)
    let db4 := { db3 with educations := newEdus }
    let newPositions : List PositionRow :=
      db4.positions.filter (fun r => decide (r.user_id ≠ user_id)) ++
        pd.position.map (posRowOf user_id)
    let db5 := { db4 with positions := newPositions }
    let newSkills : List SkillRow :=
      db5.skills.filter (fun r => decide (r.user_id ≠ user_id)) ++
        (pd.skills.filter (fun sk => decide (sk.name.getD "" ≠ ""))).map
          (fun sk => SkillRow.mk user_id (sk.name.getD ""))
    let db6 := { db5 with skills := newSkills }
    let newHonors : List HonorRow :=
      db6.honors.filter (fun r => decide (r.user_id ≠ user_id)) ++
        (pd.honors.filter (fun ho => decide (ho.title.getD "" ≠ ""))).map
          (fun ho => HonorRow.mk user_id (ho.title.getD ""))
    let db7 := { db6 with honors := newHonors }
    match source_id with
    | none => db7
    | some sid =>
      let hits := db7.people_sources.filter (fun ps =>
        decide ((ps.linkedin_url = linkedin_url ∨ ps.linkedin_url = normalized_url) ∧
          ps.source_id = sid))
      let newPs : List PeopleSourceRow :=
        if hits.isEmpty then
          db7.people_sources.map (fun ps =>
            if ps.user_id = user_id ∧ ps.source_id = sid then
              { ps with linkedin_url := normalized_url }
            else ps)
        else
          db7.people_sources.map (fun ps =>
            if (ps.linkedin_url = linkedin_url ∨ ps.linkedin_url = normalized_url) ∧
                ps.source_id = sid then
              { ps with linkedin_url := normalized_url }
            else ps)
      { db7 with people_sources := newPs }

/-- Steps 2'-9 of `LinkedInScraper.insert_profile_data` (lines 186-345): the
writes performed once the existing-person lookup of lines 179-184 has
resolved to `existing_user` (so a lookup result racing with a concurrent
commit is expressible).  A uniqueness violation on
`People.canonical_linkedin_url` rolls the transaction back and re-raises
(lines 347-352). -/
def insert_profile_data_resolved (pd : ProfileData) (linkedin_url : String)
    (source_id : Option Nat) (now : Nat) (existing_user : Option Nat) (db : DB) :
    Except ScrapeErr Nat × DB :=
  let normalized_url := normalize_linkedin_url linkedin_url
  let acquire : Except ScrapeErr (Nat × DB) :=
    match existing_user with
    | some uid =>
      if urlTakenByOther db.people normalized_url uid then .error .integrityError
      else .ok (uid, { db with
        people := db.people.map (markScraped pd now normalized_url uid) })
    | none =>
      if db.people.any (holds_key normalized_url) then
        .error .integrityError
      else .ok (db.next_user_id, { db with
        people := db.people ++
          [scrapedNewPerson pd now normalized_url db.next_user_id],
        next_user_id := db.next_user_id + 1 })
  match acquire with
  | .error e => (.error e, db)
  | .ok (user_id, db1) =>
    (.ok user_id,
     profile_attribute_writes pd linkedin_url normalized_url source_id now
       user_id db1)

/-- `LinkedInScraper.insert_profile_data` (lines 145-352).  With no resolvable
profile id (line 152's `profile_data.get('id')` falsy), every person row
holding the given URL is marked `failed` and stamped; if none exists, a new
`failed` person is inserted; the transaction commits and a `ValueError`
naming the reason is raised (lines 150-173).  Otherwise the lookup of lines
179-184 resolves the person and the writes proceed. -/
def insert_profile_data (pd : ProfileData) (linkedin_url : String)
    (source_id : Option Nat) (now : Nat) (db : DB) : Except ScrapeErr Nat × DB :=
  if ¬ truthyOpt pd.id then
    let updated := db.people.map (fun p =>
      if p.canonical_linkedin_url = some linkedin_url then
        { p with scrape_status := "failed", last_scraped_at := some now }
      else p)
    let rowcount := (db.people.filter (fun p =>
      decide (p.canonical_linkedin_url = some linkedin_url))).length
    let db' :=
      if rowcount = 0 then
        let newRow : PersonRow := { user_id := db.next_user_id,
                                    canonical_linkedin_url := some linkedin_url,
                                    last_scraped_at := some now,
                                    scrape_status := "failed" }
        { db with people := updated ++ [newRow],
                  next_user_id := db.next_user_id + 1 }
      else { db with people := updated }
    (.error (.valueError
      ("No LinkedIn profile ID found in API response for " ++ linkedin_url)), db')
  else
    let normalized_url := normalize_linkedin_url linkedin_url
    let existing := db.people.find? (person_url_match linkedin_url normalized_url)
    insert_profile_data_resolved pd linkedin_url source_id now
      (existing.map (fun p => p.user_id)) db

/-- Response of one `fetch_profile_data` call (the provider oracle). -/
inductive FetchOutcome where
  | ok (pd : ProfileData)
  | fetchError (msg : String)
deriving DecidableEq, Repr

/-- The result dictionary of `scrape_single_profile`. -/
inductive ScrapeOutcome where
  /-- `{'success': False, 'skipped': True, 'message': ...}` -/
  | skipped (message : String)
  /-- `{'success': True, 'user_id': ..., 'profile_id': ..., 'name': ..., 'linkedin_url': ...}` -/
  | succeeded (user_id : Nat) (profile_id : Option String) (name : String)
      (linkedin_url : String)
  /-- `{'success': False, 'message': ..., 'linkedin_url': ...}` -/
  | failed (message : String) (linkedin_url : String)
deriving DecidableEq, Repr

/-- `LinkedInScraper.scrape_single_profile` (lines 354-391).  The third
component records whether the provider was called at all. -/
def scrape_single_profile (fetch : FetchOutcome) (linkedin_url : String)
    (source_id : Option Nat) (force : Bool) (now : Nat) (db : DB) :
    ScrapeOutcome × DB × Bool :=
  let normalized_url := normalize_linkedin_url linkedin_url
  if !force && is_recently_scraped db normalized_url now then
    (.skipped "Profile was scraped recently (within 30 days)", db, false)
  else
    match fetch with
    | .fetchError msg => (.failed msg normalized_url, db, true)
    | .ok pd =>
      match insert_profile_data pd linkedin_url source_id now db with
      | (.ok uid, db') =>
        (.succeeded uid pd.id
          ⟨pyStrip ((pd.firstName.getD "") ++ " " ++ (pd.lastName.getD "")).data⟩
          normalized_url, db', true)
      | (.error e, db') => (.failed e.message normalized_url, db', true)

/-! ## `AshbyClient` (ashby_client.py) -/

/-- One `candidate.list` response body (fields used by the client). -/
structure AshbyPage where
  results : List Candidate := []
  moreDataAvailable : Bool := false
  nextCursor : Option String := none
  syncToken : Option String := none
deriving DecidableEq, Repr

/-- What one HTTP round-trip to the Ashby API produced (the provider
oracle).  `apiError` is a 2xx body with `success: false` and the given
(already defaulted) `errors` list; `requestError` is a
`requests.RequestException`. -/
inductive ApiResponse where
  | success (page : AshbyPage)
  | apiError (errors : List String)
  | requestError (msg : String)
deriving DecidableEq, Repr

/-- `AshbyClient._make_request` (lines 41-60): every failure is surfaced as
an `AshbyAPIError` carrying only a message string. -/
def make_request (r : ApiResponse) : Except String AshbyPage :=
  match r with
  | .success page => .ok page
  | .apiError errors => .error ("Ashby API error: " ++ String.intercalate ", " errors)
  | .requestError msg => .error ("Request failed: " ++ msg)

/-- How a generator run ends: a `return` (whose value Python delivers inside
`StopIteration`) or a raised `AshbyAPIError`. -/
inductive GenOutcome where
  | finished (sync_token : Option String)
  | raised (msg : String)
deriving DecidableEq, Repr

/-- `AshbyClient.sync_candidates_full` (lines 62-103) run against the list of
successive `candidate.list` round-trip results.  Produces the list of yielded
batches (each batch dictionary's `candidates` list, the only key the sync
service reads) and how the generator ended.  An exhausted oracle stands for a
request that never got an answer. -/
def sync_candidates_full_gen : List ApiResponse → List (List Candidate) × GenOutcome
  | [] => ([], .raised "Request failed: no response")
  | r :: rest =>
    match make_request r with
    | .error msg => ([], .raised msg)
    | .ok page =>
      let yielded := if page.results.isEmpty then [] else [page.results]
      if !page.moreDataAvailable then
        (yielded, .finished page.syncToken)
      else
        match page.nextCursor with
        | none => (yielded, .raised "No nextCursor provided but moreDataAvailable is true")
        | some _ =>
          let (bs, out) := sync_candidates_full_gen rest
          (yielded ++ bs, out)

/-- `AshbyClient.sync_candidates_incremental` (lines 105-151): identical
pagination, except an `AshbyAPIError` whose message contains
`sync_token_expired` is replaced by the dedicated full-sync-required
message (lines 124-127). -/
def sync_candidates_incremental_gen : List ApiResponse → List (List Candidate) × GenOutcome
  | [] => ([], .raised "Request failed: no response")
  | r :: rest =>
    match make_request r with
    | .error msg =>
      if containsSub msg.data "sync_token_expired".data then
        ([], .raised "Sync token expired. Need to perform full sync.")
      else ([], .raised msg)
    | .ok page =>
      let yielded := if page.results.isEmpty then [] else [page.results]
      if !page.moreDataAvailable then
        (yielded, .finished page.syncToken)
      else
        match page.nextCursor with
        | none => (yielded, .raised "No nextCursor provided but moreDataAvailable is true")
        | some _ =>
          let (bs, out) := sync_candidates_incremental_gen rest
          (yielded ++ bs, out)

/-- `AshbyClient.extract_linkedin_url` (lines 153-161): first social link
typed `LinkedIn` whose stripped url is nonempty. -/
def extract_linkedin_url (c : Candidate) : Option String :=
  c.socialLinks.findSome? (fun link =>
    if link.linkType = some "LinkedIn" then
      let url : String := ⟨pyStrip (link.url.getD "").data⟩
      if url ≠ "" then some url else none
    else none)

/-- Python `str.title()` restricted to ASCII casing: each alphabetic run is
capitalised on its first letter and lower-cased afterwards. -/
def pyTitleAux : List Char → Bool → List Char
  | [], _ => []
  | c :: tl, prevAlpha =>
    (if c.isAlpha then (if prevAlpha then c.toLower else c.toUpper) else c) ::
      pyTitleAux tl c.isAlpha

/-- `AshbyClient.get_candidate_name` (lines 163-175). -/
def get_candidate_name (c : Candidate) : String :=
  let name : String := ⟨pyStrip (c.name.getD "").data⟩
  if name ≠ "" then name
  else
    match c.primaryEmailAddress with
    | some email =>
      let beforeAt := (email.value.getD "").data.takeWhile (fun ch => ch ≠ '@')
      let replaced := beforeAt.map (fun ch => if ch = '.' then ' ' else ch)
      ⟨pyTitleAux replaced false⟩
    | none => "Candidate " ++ ⟨(c.id.getD "Unknown").data.take 8⟩

/-- `AshbyClient.get_candidate_email` (lines 177-180). -/
def get_candidate_email (c : Candidate) : Option String :=
  match c.primaryEmailAddress with
  | some e => e.value
  | none => none

/-- `AshbyClient.format_candidate_for_storage` (lines 182-204);
`datetime.utcnow()` is the explicit `now` argument. -/
def format_candidate_for_storage (c : Candidate) (now : Nat) : SourceMetadata :=
  { ashby_candidate_id := c.id
    ashby_data := c
    last_synced := now
    sync_status := "synced"
    extracted_fields :=
      { name := get_candidate_name c
        email := get_candidate_email c
        linkedin_url := extract_linkedin_url c
        position := c.position
        company := c.company
        school := c.school
        tags := c.tags.map (fun t => t.title)
        location :=
          match c.primaryLocation with
          | some loc => loc.locationSummary
          | none => none } }

/-! ## `AshbySyncService` (ashby_sync_service.py) -/

/-- `AshbySyncService.get_active_integration` (lines 92-110):
`WHERE is_active ORDER BY created_at DESC LIMIT 1`; modelled as the active
row with the greatest `created_at` (first such row on ties). -/
def get_active_integration (db : DB) : Option IntegrationRow :=
  (db.ashby_integrations.filter (fun i => i.is_active)).foldl
    (fun acc i =>
      match acc with
      | none => some i
      | some a => if i.created_at > a.created_at then some i else acc)
    none

/-- `AshbySyncService.create_sync_job` (lines 112-130); see `SyncJobRow` for
the modelled column defaults. -/
def create_sync_job (integration_id : Nat) (job_type : String) (now : Nat)
    (db : DB) : Nat × DB :=
  let jid := db.next_job_id
  (jid, { db with
    ashby_sync_jobs := db.ashby_sync_jobs ++
      [{ id := jid, integration_id := integration_id, job_type := job_type,
         status := "running", started_at := now }],
    next_job_id := jid + 1 })

/-- The keyword arguments accepted by `update_sync_job` (lines 132-160). -/
structure JobUpdate where
  status : Option String := none
  candidates_processed : Option Nat := none
  candidates_created : Option Nat := none
  candidates_updated : Option Nat := none
  candidates_skipped : Option Nat := none
  error_message : Option String := none
deriving DecidableEq, Repr

/-- `AshbySyncService.update_sync_job` (lines 132-160): updates only the
allowed fields of the given job row; `completed_at` is stamped exactly when
the update carries status `completed` or `failed`. -/
def update_sync_job (job_id : Nat) (u : JobUpdate) (now : Nat) (db : DB) : DB :=
  { db with ashby_sync_jobs := db.ashby_sync_jobs.map (fun j =>
      if j.id = job_id then
        let j' : SyncJobRow :=
          { j with
            status := u.status.getD j.status,
            candidates_processed := u.candidates_processed.getD j.candidates_processed,
            candidates_created := u.candidates_created.getD j.candidates_created,
            candidates_updated := u.candidates_updated.getD j.candidates_updated,
            candidates_skipped := u.candidates_skipped.getD j.candidates_skipped,
            error_message :=
              match u.error_message with
              | some m => some m
              | none => j.error_message }
        if u.status = some "completed" ∨ u.status = some "failed" then
          { j' with completed_at := some now }
        else j'
      else j) }

/-- The LinkedIn url extraction loop repeated in `find_existing_candidate`
(lines 186-190) and `process_candidate` (lines 253-257): the first social
link typed `LinkedIn` ends the loop, whatever its `url` value. -/
def candidate_linkedin_url (c : Candidate) : Option String :=
  match c.socialLinks.find? (fun l => decide (l.linkType = some "LinkedIn")) with
  | some l => l.url
  | none => none

/-- `normalized_linkedin_url` of `process_candidate` (lines 259-262): the
canonical key of the candidate's LinkedIn URL when one is present and
truthy. -/
def candidate_normalized_key (c : Candidate) : Option String :=
  match candidate_linkedin_url c with
  | some u => if u ≠ "" then some (normalize_linkedin_url u) else none
  | none => none

/-- Row filter of check (1) of `find_existing_candidate` (lines 172-183):
`ps.source_metadata->>'ashby_candidate_id' = aid`, joined against People. -/
def membership_carries_ashby_id (db : DB) (aid : String) (ps : PeopleSourceRow) : Bool :=
  decide ((∃ md, ps.source_metadata = some md ∧ md.ashby_candidate_id = some aid) ∧
    ∃ p ∈ db.people, p.user_id = ps.user_id)

/-- `AshbySyncService.find_existing_candidate` (lines 162-204): first by
`ashby_candidate_id` in any membership's metadata (joined against People),
then by normalized LinkedIn identity key against People. -/
def find_existing_candidate (c : Candidate) (db : DB) : Option Nat :=
  let byAshbyId : Option Nat :=
    match c.id with
    | some aid =>
      if aid ≠ "" then
        match db.people_sources.find? (membership_carries_ashby_id db aid) with
        | some ps => some ps.user_id
        | none => none
      else none
    | none => none
  match byAshbyId with
  | some uid => some uid
  | none =>
    match candidate_linkedin_url c with
    | some url =>
      if url ≠ "" then
        let normalized := normalize_linkedin_url url
        match db.people.find? (holds_key normalized) with
        | some p => some p.user_id
        | none => none
      else none
    | none => none

/-- `AshbySyncService.create_or_get_ashby_source` (lines 206-241). -/
def create_or_get_ashby_source (db : DB) : Nat × DB :=
  match db.sources.find? (fun s => decide (s.source_type = "ashby")) with
  | some s => (s.id, db)
  | none =>
    let sid := db.next_source_id
    (sid, { db with
      sources := db.sources ++
        [{ id := sid, name := "Ashby Candidates",
           description := "Candidates imported from Ashby ATS",
           source_type := "ashby",
           metadata_schema := some { sync_enabled := true, last_full_sync := none,
                                     candidate_count := 0 } }],
      next_source_id := sid + 1 })

/-- The write phase of `AshbySyncService.process_candidate` (lines 243-328),
taking the already-computed result of the `find_existing_candidate` lookup
(which the code performs on a separate connection, so it can race with a
concurrent commit).  Returns `(action_taken, user_id, db)`.  The storage
uniqueness constraint on `People.canonical_linkedin_url` (modelled from the
spec, see `urlTakenByOther`) makes the new-person insert fail when the key
is already held, which the code's `except Exception` turns into
`("skipped", 0)` after rollback (lines 323-326). -/
def process_candidate_resolved (c : Candidate) (source_id : Nat) (now : Nat)
    (existing_user_id : Option Nat) (db : DB) : String × Nat × DB :=
  let linkedin_url := candidate_linkedin_url c
  let normalized_linkedin_url := candidate_normalized_key c
  let source_metadata := format_candidate_for_storage c now
  match existing_user_id with
  | some uid =>
    let isMember := db.people_sources.any (fun ps =>
      decide (ps.user_id = uid ∧ ps.source_id = source_id))
    if isMember then
      let newPs := db.people_sources.map (fun ps =>
        if ps.user_id = uid ∧ ps.source_id = source_id then
          { ps with source_metadata := some source_metadata,
                    linkedin_url := linkedin_url.getD "" }
        else ps)
      ("updated", uid, { db with people_sources := newPs })
    else
      let newRow : PeopleSourceRow :=
        { id := db.next_ps_id, user_id := uid, source_id := source_id,
          linkedin_url := linkedin_url.getD "",
          source_metadata := some source_metadata }
      ("updated", uid, { db with people_sources := db.people_sources ++ [newRow],
                                 next_ps_id := db.next_ps_id + 1 })
  | none =>
    let conflict :=
      match normalized_linkedin_url with
      | some nurl => db.people.any (holds_key nurl)
      | none => false
    if conflict then ("skipped", 0, db)
    else
      let uid := db.next_user_id
      let newPerson : PersonRow :=
        { user_id := uid, canonical_linkedin_url := normalized_linkedin_url,
          scrape_status := "pending" }
      let db1 := { db with people := db.people ++ [newPerson],
                           next_user_id := uid + 1 }
      let newRow : PeopleSourceRow :=
        { id := db1.next_ps_id, user_id := uid, source_id := source_id,
          linkedin_url := linkedin_url.getD "",
          source_metadata := some source_metadata }
      let db2 := { db1 with people_sources := db1.people_sources ++ [newRow],
                            next_ps_id := db1.next_ps_id + 1 }
      ("created", uid, db2)

/-- `AshbySyncService.process_candidate` (lines 243-328) with the lookup and
the writes on one consistent store state. -/
def process_candidate (c : Candidate) (source_id : Nat) (now : Nat) (db : DB) :
    String × Nat × DB :=
  process_candidate_resolved c source_id now (find_existing_candidate c db) db

/-- `AshbySyncService.mark_stale_jobs_as_failed` (lines 345-367):
`status = 'running' AND started_at < CURRENT_TIMESTAMP - INTERVAL '30 minutes'`
(timestamps are minutes). -/
def mark_stale_jobs_as_failed (max_age_minutes : Nat) (now : Nat) (db : DB) : DB :=
  { db with ashby_sync_jobs := db.ashby_sync_jobs.map (fun j =>
      if j.status = "running" ∧ j.started_at + max_age_minutes < now then
        { j with status := "failed",
                 error_message := some "Job marked as failed due to timeout",
                 completed_at := some now }
      else j) }

/-- The `stats` counter dictionary of `sync_candidates`. -/
structure SyncStats where
  candidates_processed : Nat := 0
  candidates_created : Nat := 0
  candidates_updated : Nat := 0
  candidates_skipped : Nat := 0
deriving DecidableEq, Repr

/-- `update_sync_job(job_id, **stats)`: the counters as a `JobUpdate`. -/
def statsUpdate (s : SyncStats) : JobUpdate :=
  { candidates_processed := some s.candidates_processed,
    candidates_created := some s.candidates_created,
    candidates_updated := some s.candidates_updated,
    candidates_skipped := some s.candidates_skipped }

/-- The inner candidate loop of `sync_candidates` (lines 417-426). -/
def process_batch (cands : List Candidate) (source_id : Nat) (now : Nat)
    (stats : SyncStats) (db : DB) : SyncStats × DB :=
  cands.foldl
    (fun acc cand =>
      let (action, _uid, db') := process_candidate cand source_id now acc.2
      let s0 := acc.1
      let s1 := { s0 with candidates_processed := s0.candidates_processed + 1 }
      let s2 :=
        if action = "created" then
          { s1 with candidates_created := s1.candidates_created + 1 }
        else if action = "updated" then
          { s1 with candidates_updated := s1.candidates_updated + 1 }
        else
          { s1 with candidates_skipped := s1.candidates_skipped + 1 }
      (s2, db'))
    (stats, db)

/-- The batch loop of `sync_candidates` (lines 409-429): after each batch the
running counters are checkpointed onto the job row. -/
def sync_process_batches (batches : List (List Candidate)) (source_id : Nat)
    (job_id : Nat) (now : Nat) (stats : SyncStats) (db : DB) : SyncStats × DB :=
  batches.foldl
    (fun acc batch =>
      let (s, db') := process_batch batch source_id now acc.1 acc.2
      (s, update_sync_job job_id (statsUpdate s) now db'))
    (stats, db)

/-- Store-level events recorded in order during one `sync_candidates`
invocation (only the two the claims talk about). -/
inductive DBEvent where
  | sweepStale
  | jobCreated (job_id : Nat)
deriving DecidableEq, Repr

/-- How `sync_candidates` (lines 369-456) ends. -/
inductive SyncResult where
  /-- normal return of the stats dictionary (plus `job_id`) -/
  | ok (stats : SyncStats) (job_id : Nat)
  /-- `ValueError("No active Ashby integration found")` -/
  | noActiveIntegration
  /-- an `AshbyAPIError` re-raised after the job was marked failed -/
  | raised (msg : String) (job_id : Nat)
deriving DecidableEq, Repr

/-- `AshbySyncService.sync_candidates` (lines 369-456) driven by the list of
provider round-trip results.  Note on lines 408-413: the generator's final
`return sync_token` travels inside `StopIteration`, which the plain
`for batch_or_token in sync_generator` statement swallows — every yielded
item is a batch dictionary and the `isinstance(batch_or_token, str)` branch
never runs, so `final_sync_token` is still `None` after the loop and the
`if final_sync_token:` block (lines 432-443) is dead code.  The embedding
keeps that dead branch verbatim. -/
def sync_candidates_active (integration : IntegrationRow)
    (responses : List ApiResponse) (is_incremental : Bool)
    (now : Nat) (db : DB) : SyncResult × DB × List DBEvent :=
    let db1 := mark_stale_jobs_as_failed 30 now db
    let job_type := if is_incremental then "incremental" else "initial"
    let (job_id, db2) := create_sync_job integration.id job_type now db1
    let events := [DBEvent.sweepStale, DBEvent.jobCreated job_id]
    let (source_id, db3) := create_or_get_ashby_source db2
    let (batches, outcome) :=
      if is_incremental && truthyOpt integration.sync_token then
        sync_candidates_incremental_gen responses
      else
        sync_candidates_full_gen responses
    let (stats, db4) := sync_process_batches batches source_id job_id now {} db3
    match outcome with
    | .raised msg =>
      let db5 := update_sync_job job_id
        { statsUpdate stats with status := some "failed",
                                 error_message := some msg } now db4
      (.raised msg job_id, db5, events)
    | .finished _returned_token =>
      let final_sync_token : Option String := none
      let db5 :=
        match final_sync_token with
        | some tok =>
          { db4 with ashby_integrations := db4.ashby_integrations.map (fun i =>
              if i.id = integration.id then
                { i with sync_token := some tok, last_sync_at := some now }
              else i) }
        | none => db4
      let db6 := update_sync_job job_id
        { statsUpdate stats with status := some "completed" } now db5
      (.ok stats job_id, db6, events)

/-- `AshbySyncService.sync_candidates` (lines 369-456): raises `ValueError`
when no active integration exists (lines 374-376), otherwise runs the body
`sync_candidates_active`. -/
def sync_candidates (responses : List ApiResponse) (is_incremental : Bool)
    (now : Nat) (db : DB) : SyncResult × DB × List DBEvent :=
  match get_active_integration db with
  | none => (.noActiveIntegration, db, [])
  | some integration =>
    sync_candidates_active integration responses is_incremental now db

/-! ## Claim C1: URL normalization identifies the variant forms -/

lemma dts_append_slash (l : List Char) :
    dropTrailingSlashes (l ++ ['/']) = dropTrailingSlashes l := by
  simp [dropTrailingSlashes, List.reverse_append, List.dropWhile_cons]

lemma dts_no_trailing (l : List Char) (h : l.getLast? ≠ some '/') :
    dropTrailingSlashes l = l := by
  unfold dropTrailingSlashes
  cases hr : l.reverse with
  | nil => simpa [List.reverse_eq_iff] using hr
  | cons c tl =>
    have hc : (decide (c = '/')) = false := by
      apply decide_eq_false
      intro hcc; subst hcc
      exact h (by rw [← List.head?_reverse, hr]; rfl)
    rw [List.dropWhile_cons, hc]
    simp only [Bool.false_eq_true, if_false]
    rw [← hr, List.reverse_reverse]

lemma takeWhile_all_of_no_q (l : List Char) (h : '?' ∉ l) : beforeQuery l = l := by
  apply List.takeWhile_eq_self_iff.mpr
  intro x hx
  simp only [ne_eq, decide_eq_true_eq]
  intro hxq
  exact h (hxq ▸ hx)

lemma beforeQuery_append (a x : List Char) (h : '?' ∉ a) :
    beforeQuery (a ++ x) = a ++ beforeQuery x := by
  have ha : beforeQuery a = a := takeWhile_all_of_no_q a h
  unfold beforeQuery at ha ⊢
  rw [List.takeWhile_append, ha]
  simp

lemma beforeQuery_append_q (s t : List Char) (h : '?' ∉ s) :
    beforeQuery (s ++ '?' :: t) = s := by
  rw [beforeQuery_append s _ h]
  simp [beforeQuery, List.takeWhile_cons]

lemma dts_append (a r : List Char) (h : a.getLast? ≠ some '/') :
    dropTrailingSlashes (a ++ r) = a ++ dropTrailingSlashes r := by
  unfold dropTrailingSlashes
  rw [List.reverse_append, List.dropWhile_append]
  by_cases he : (List.dropWhile (fun c => decide (c = '/')) r.reverse).isEmpty = true
  · rw [if_pos he]
    have ha := dts_no_trailing a h
    unfold dropTrailingSlashes at ha
    rw [List.isEmpty_iff] at he
    rw [ha, he]
    simp
  · rw [if_neg he]
    rw [List.reverse_append, List.reverse_reverse]

lemma isPrefixOf_cons_ne {x y : Char} (xs ys : List Char) (h : x ≠ y) :
    (x :: xs).isPrefixOf (y :: ys) = false := by
  simp [List.isPrefixOf, h]

lemma isPrefixOf_append_self (a w : List Char) : a.isPrefixOf (a ++ w) = true := by
  induction a with
  | nil => simp [List.isPrefixOf]
  | cons x xs ih => simp [List.isPrefixOf, ih]

/-- Claim C1, counterexample: the spec's own variant forms `linkedin.com/in/x`
and `https://linkedin.com/in/x?trk=...` do NOT normalize to the same key:
the first becomes `https://www.linkedin.com/in/x` while the second keeps its
scheme and missing `www.` and becomes `https://linkedin.com/in/x`, because
the `www.`-adding branch only fires on strings that literally start with
`linkedin.com`. -/
theorem C1_counterexample :
    normalize_linkedin_url "linkedin.com/in/x" ≠
    normalize_linkedin_url "https://linkedin.com/in/x?trk=pub" := by decide

/-- Claim C1, amended: for an input `s` without `'?'` and without a trailing
slash, appending a trailing slash or a query string does not change the
canonical key, and a bare `linkedin.com…` form yields the same key as the
corresponding `https://www.linkedin.com…` form.  (The missing amendment:
a `https://linkedin.com…` form — scheme present, `www.` absent — is NOT
identified with the `www.` form, per `C1_counterexample`.) -/
theorem C1_amended (s q r : String) (hq : '?' ∉ s.data)
    (hs : s.data.getLast? ≠ some '/') :
    normalize_linkedin_url (s ++ "/") = normalize_linkedin_url s ∧
    normalize_linkedin_url (s ++ "?" ++ q) = normalize_linkedin_url s ∧
    normalize_linkedin_url ("linkedin.com" ++ r) =
      normalize_linkedin_url ("https://www.linkedin.com" ++ r) := by
  refine ⟨?_, ?_, ?_⟩
  · unfold normalize_linkedin_url
    rw [String.data_append]
    show (let u := beforeQuery (dropTrailingSlashes (s.data ++ ['/'])); _) = _
    rw [dts_append_slash]
  · unfold normalize_linkedin_url
    rw [String.data_append, String.data_append]
    have h1 : s.data ++ "?".data ++ q.data = (s.data ++ ['?']) ++ q.data := by simp
    rw [h1]
    have h2 : (s.data ++ ['?']).getLast? ≠ some '/' := by
      rw [List.getLast?_append_cons]
      simp
    rw [dts_append _ _ h2, List.append_assoc, List.singleton_append]
    rw [beforeQuery_append_q _ _ hq]
    rw [dts_no_trailing _ hs, takeWhile_all_of_no_q _ hq]
  · unfold normalize_linkedin_url
    rw [String.data_append, String.data_append]
    have hl : ("linkedin.com".data : List Char).getLast? ≠ some '/' := by decide
    have hh : ("https://www.linkedin.com".data : List Char).getLast? ≠ some '/' := by
      decide
    have hlq : '?' ∉ ("linkedin.com".data : List Char) := by decide
    have hhq : '?' ∉ ("https://www.linkedin.com".data : List Char) := by decide
    rw [dts_append _ _ hl, dts_append _ _ hh, beforeQuery_append _ _ hlq,
        beforeQuery_append _ _ hhq]
    set w := beforeQuery (dropTrailingSlashes r.data) with hw
    have hpre : ("linkedin.com".data : List Char).isPrefixOf
        ("linkedin.com".data ++ w) = true := isPrefixOf_append_self _ _
    have hsplit : ("https://www.linkedin.com".data : List Char) =
        'h' :: "ttps://www.linkedin.com".data := by decide
    have hld : ("linkedin.com".data : List Char) = 'l' :: "inkedin.com".data := by
      decide
    have hnpre : ("linkedin.com".data : List Char).isPrefixOf
        ("https://www.linkedin.com".data ++ w) = false := by
      rw [hsplit, hld, List.cons_append]
      exact isPrefixOf_cons_ne _ _ (by decide)
    simp only [hpre, hnpre, if_true, if_false, Bool.false_eq_true]
    rw [← List.append_assoc]
    rfl

/-- Claim C1, witness for the amended theorem at concrete inputs. -/
theorem C1_amended_witness :
    normalize_linkedin_url ("https://www.linkedin.com/in/x" ++ "/") =
      normalize_linkedin_url "https://www.linkedin.com/in/x" ∧
    normalize_linkedin_url ("https://www.linkedin.com/in/x" ++ "?" ++ "trk=pub") =
      normalize_linkedin_url "https://www.linkedin.com/in/x" ∧
    normalize_linkedin_url ("linkedin.com" ++ "/in/x") =
      normalize_linkedin_url ("https://www.linkedin.com" ++ "/in/x") :=
  C1_amended "https://www.linkedin.com/in/x" "trk=pub" "/in/x"
    (by decide) (by decide)

/-! ## Claims C8 and C10: the freshness window -/

/-- Claim C8: an ingest call without `force` for a URL whose registry row
(the first row the freshness query resolves for the normalized URL) carries
a refresh timestamp within the 30-day window returns the skipped result —
a no-op: the store is returned unchanged and the provider is never called
(third component `false`). -/
theorem C8_fresh_window_skip (fetch : FetchOutcome) (linkedin_url : String)
    (source_id : Option Nat) (now t : Nat) (db : DB) (p : PersonRow)
    (hfind : db.people.find?
      (recently_scraped_row (normalize_linkedin_url linkedin_url)) = some p)
    (ht : p.last_scraped_at = some t)
    (hage : dateOf now - dateOf t ≤ MAX_AGE_DAYS) :
    scrape_single_profile fetch linkedin_url source_id false now db =
      (ScrapeOutcome.skipped "Profile was scraped recently (within 30 days)",
        db, false) := by
  have hrec : is_recently_scraped db (normalize_linkedin_url linkedin_url) now = true := by
    unfold is_recently_scraped
    rw [hfind]
    simp [ht, hage]
  unfold scrape_single_profile
  simp [hrec]

/-- A person row refreshed within the freshness window. -/
def dbFresh : DB :=
  { people := [{ user_id := 1,
                 canonical_linkedin_url := some "https://www.linkedin.com/in/jane",
                 last_scraped_at := some 100, scrape_status := "scraped" }],
    next_user_id := 2 }

/-- Claim C8, witness: one day after a refresh, a non-forced ingest of the
same URL is skipped with no fetch and no change. -/
theorem C8_fresh_window_skip_witness :
    scrape_single_profile (FetchOutcome.ok {}) "https://www.linkedin.com/in/jane"
      none false 1540 dbFresh =
      (ScrapeOutcome.skipped "Profile was scraped recently (within 30 days)",
        dbFresh, false) :=
  C8_fresh_window_skip (FetchOutcome.ok {}) "https://www.linkedin.com/in/jane"
    none 1540 100 dbFresh
    { user_id := 1,
      canonical_linkedin_url := some "https://www.linkedin.com/in/jane",
      last_scraped_at := some 100, scrape_status := "scraped" }
    (by decide) (by decide) (by decide)

/-- Claim C10: the freshness check reads only the refresh timestamp, never
the refresh status — the quantification over `p.scrape_status` is free
except for the hypothesis that it is `failed`, exactly the row shape the
missing-profile-id path leaves behind.  A non-forced re-ingest inside the
window is skipped without a provider call and without any write, so the
`failed` row survives unchanged (in particular it cannot become
`scraped`). -/
theorem C10_failed_row_not_retried (fetch : FetchOutcome) (linkedin_url : String)
    (source_id : Option Nat) (now t : Nat) (db : DB) (p : PersonRow)
    (hfind : db.people.find?
      (recently_scraped_row (normalize_linkedin_url linkedin_url)) = some p)
    (hstatus : p.scrape_status = "failed")
    (ht : p.last_scraped_at = some t)
    (hage : dateOf now - dateOf t ≤ MAX_AGE_DAYS) :
    scrape_single_profile fetch linkedin_url source_id false now db =
      (ScrapeOutcome.skipped "Profile was scraped recently (within 30 days)",
        db, false) ∧
    p ∈ db.people ∧ p.scrape_status = "failed" := by
  refine ⟨?_, List.mem_of_find?_eq_some hfind, hstatus⟩
  have hrec : is_recently_scraped db (normalize_linkedin_url linkedin_url) now = true := by
    unfold is_recently_scraped
    rw [hfind]
    simp [ht, hage]
  unfold scrape_single_profile
  simp [hrec]

/-- The store left behind by an ingest whose profile document had no id:
`insert_profile_data` created a `failed` person stamped at time 100. -/
def dbAfterFailedIngest : DB :=
  (insert_profile_data { id := none } "https://www.linkedin.com/in/jane"
    none 100 {}).2

/-- The `failed` person row inside `dbAfterFailedIngest`. -/
def pFailedRow : PersonRow :=
  { user_id := 1, canonical_linkedin_url := some "https://www.linkedin.com/in/jane",
    last_scraped_at := some 100, scrape_status := "failed" }

/-- Claim C10, witness: after the missing-profile-id path stamped a `failed`
person, a non-forced retry one day later is skipped without a fetch. -/
theorem C10_failed_row_not_retried_witness :
    (scrape_single_profile (FetchOutcome.ok {}) "https://www.linkedin.com/in/jane"
      none false 1540 dbAfterFailedIngest =
      (ScrapeOutcome.skipped "Profile was scraped recently (within 30 days)",
        dbAfterFailedIngest, false)) ∧
    pFailedRow ∈ dbAfterFailedIngest.people ∧ pFailedRow.scrape_status = "failed" :=
  C10_failed_row_not_retried (FetchOutcome.ok {}) "https://www.linkedin.com/in/jane"
    none 1540 100 dbAfterFailedIngest pFailedRow
    (by decide) (by decide) (by decide) (by decide)

/-! ## Claim C6: missing profile id -/

/-- The `UPDATE People SET scrape_status = 'failed', last_scraped_at = now`
of the missing-id path, applied to the rows holding the URL. -/
def failedMarkPeople (linkedin_url : String) (now : Nat)
    (people : List PersonRow) : List PersonRow :=
  people.map (fun p =>
    if p.canonical_linkedin_url = some linkedin_url then
      { p with scrape_status := "failed", last_scraped_at := some now }
    else p)

/-- The `failed` person inserted by the missing-id path when no row held
the URL. -/
def failedNewPerson (linkedin_url : String) (now uid : Nat) : PersonRow :=
  { user_id := uid, canonical_linkedin_url := some linkedin_url,
    last_scraped_at := some now, scrape_status := "failed" }

/-- Unfolding equation of `insert_profile_data` in the missing-id case. -/
lemma insert_profile_data_no_id (pd : ProfileData) (linkedin_url : String)
    (source_id : Option Nat) (now : Nat) (db : DB)
    (hid : truthyOpt pd.id = false) :
    insert_profile_data pd linkedin_url source_id now db =
      (Except.error (ScrapeErr.valueError
        ("No LinkedIn profile ID found in API response for " ++ linkedin_url)),
       if (db.people.filter (fun p =>
            decide (p.canonical_linkedin_url = some linkedin_url))).length = 0 then
         { db with
           people := failedMarkPeople linkedin_url now db.people ++
             [failedNewPerson linkedin_url now db.next_user_id],
           next_user_id := db.next_user_id + 1 }
       else
         { db with people := failedMarkPeople linkedin_url now db.people }) := by
  unfold insert_profile_data
  rw [if_pos (by simp [hid])]
  rfl

/-- Claim C6: when the fetched document has no resolvable profile id, the
upsert raises a `ValueError` naming the reason and the URL; every person
row holding that URL is marked `failed` with the refresh time stamped; a
person row holding that URL exists afterwards (created `failed` when none
existed); and no attribute rows are touched (educations, positions, skills,
honors, location). -/
theorem C6_missing_profile_id (pd : ProfileData) (linkedin_url : String)
    (source_id : Option Nat) (now : Nat) (db : DB)
    (hid : truthyOpt pd.id = false) :
    (insert_profile_data pd linkedin_url source_id now db).1 =
      Except.error (ScrapeErr.valueError
        ("No LinkedIn profile ID found in API response for " ++ linkedin_url)) ∧
    (∀ p ∈ (insert_profile_data pd linkedin_url source_id now db).2.people,
      p.canonical_linkedin_url = some linkedin_url →
      p.scrape_status = "failed" ∧ p.last_scraped_at = some now) ∧
    (∃ p ∈ (insert_profile_data pd linkedin_url source_id now db).2.people,
      p.canonical_linkedin_url = some linkedin_url) ∧
    (insert_profile_data pd linkedin_url source_id now db).2.educations =
      db.educations ∧
    (insert_profile_data pd linkedin_url source_id now db).2.positions =
      db.positions ∧
    (insert_profile_data pd linkedin_url source_id now db).2.skills = db.skills ∧
    (insert_profile_data pd linkedin_url source_id now db).2.honors = db.honors ∧
    (insert_profile_data pd linkedin_url source_id now db).2.geo = db.geo := by
  rw [insert_profile_data_no_id pd linkedin_url source_id now db hid]
  have hmark : ∀ p ∈ failedMarkPeople linkedin_url now db.people,
      p.canonical_linkedin_url = some linkedin_url →
      p.scrape_status = "failed" ∧ p.last_scraped_at = some now := by
    intro p hp hurl
    unfold failedMarkPeople at hp
    rcases List.mem_map.mp hp with ⟨q, _hq, rfl⟩
    by_cases hq2 : q.canonical_linkedin_url = some linkedin_url
    · simp [hq2]
    · rw [if_neg hq2] at hurl ⊢
      exact absurd hurl hq2
  by_cases hrow : (db.people.filter (fun p =>
      decide (p.canonical_linkedin_url = some linkedin_url))).length = 0
  · rw [if_pos hrow]
    refine ⟨rfl, ?_, ?_, rfl, rfl, rfl, rfl, rfl⟩
    · intro p hp hurl
      rcases List.mem_append.mp hp with hp | hp
      · exact hmark p hp hurl
      · rcases List.mem_singleton.mp hp with rfl
        exact ⟨rfl, rfl⟩
    · exact ⟨failedNewPerson linkedin_url now db.next_user_id,
        List.mem_append.mpr (Or.inr (List.mem_singleton.mpr rfl)), rfl⟩
  · rw [if_neg hrow]
    refine ⟨rfl, hmark, ?_, rfl, rfl, rfl, rfl, rfl⟩
    have hne : (db.people.filter (fun p =>
        decide (p.canonical_linkedin_url = some linkedin_url))) ≠ [] := by
      intro hnil
      exact hrow (by rw [hnil]; rfl)
    rcases List.exists_mem_of_ne_nil _ hne with ⟨q, hq⟩
    have hqmem := List.mem_of_mem_filter hq
    have hqurl : q.canonical_linkedin_url = some linkedin_url := by
      have := List.of_mem_filter hq
      simpa using this
    refine ⟨{ q with scrape_status := "failed", last_scraped_at := some now },
      ?_, hqurl⟩
    unfold failedMarkPeople
    apply List.mem_map.mpr
    refine ⟨q, hqmem, ?_⟩
    simp [hqurl]

/-- Claim C6, witness: a document with no id against an empty store. -/
theorem C6_missing_profile_id_witness :
    (insert_profile_data { id := none } "https://www.linkedin.com/in/jane"
        none 100 {}).1 =
      Except.error (ScrapeErr.valueError
        ("No LinkedIn profile ID found in API response for " ++
          "https://www.linkedin.com/in/jane")) ∧
    (∀ p ∈ (insert_profile_data { id := none } "https://www.linkedin.com/in/jane"
        none 100 ({} : DB)).2.people,
      p.canonical_linkedin_url = some "https://www.linkedin.com/in/jane" →
      p.scrape_status = "failed" ∧ p.last_scraped_at = some 100) ∧
    (∃ p ∈ (insert_profile_data { id := none } "https://www.linkedin.com/in/jane"
        none 100 ({} : DB)).2.people,
      p.canonical_linkedin_url = some "https://www.linkedin.com/in/jane") ∧
    (insert_profile_data { id := none } "https://www.linkedin.com/in/jane"
        none 100 ({} : DB)).2.educations = ({} : DB).educations ∧
    (insert_profile_data { id := none } "https://www.linkedin.com/in/jane"
        none 100 ({} : DB)).2.positions = ({} : DB).positions ∧
    (insert_profile_data { id := none } "https://www.linkedin.com/in/jane"
        none 100 ({} : DB)).2.skills = ({} : DB).skills ∧
    (insert_profile_data { id := none } "https://www.linkedin.com/in/jane"
        none 100 ({} : DB)).2.honors = ({} : DB).honors ∧
    (insert_profile_data { id := none } "https://www.linkedin.com/in/jane"
        none 100 ({} : DB)).2.geo = ({} : DB).geo :=
  C6_missing_profile_id { id := none } "https://www.linkedin.com/in/jane"
    none 100 {} (by decide)

/-! ## Claim C3: uniqueness conflict while creating a person -/

/-- A store in which user 1 already holds the canonical key
`https://www.linkedin.com/in/x` (as left by a concurrent ingestion that
committed between another worker's lookup and its insert). -/
def raceDb : DB :=
  { people := [{ user_id := 1,
                 canonical_linkedin_url := some "https://www.linkedin.com/in/x",
                 scrape_status := "scraped" }],
    next_user_id := 2 }

/-- A candidate whose only identity information is the LinkedIn URL already
held by `raceDb`'s person 1. -/
def raceCand : Candidate :=
  { id := some "cand-9",
    socialLinks := [{ linkType := some "LinkedIn",
                      url := some "https://www.linkedin.com/in/x" }] }

/-- Claim C3, counterexample: in the scraping pipeline, an upsert whose
lookup resolved to "no existing person" (`existing_user = none`) while the
canonical key is already held (the expected concurrent-ingestion race) does
NOT degrade to a reconciling update: the transaction rolls back and the
`IntegrityError` is re-raised to the caller. -/
theorem C3_counterexample :
    (insert_profile_data_resolved { id := some "p1" } "https://www.linkedin.com/in/x"
      none 500 none raceDb).1 = Except.error ScrapeErr.integrityError := by rfl

/-- Claim C3, amended: when a profile-upsert attempt tries to create a new
person while the canonical key is already held by an existing row, the two
code paths behave differently, and neither reconciles: the scraping
pipeline's `insert_profile_data` rolls the transaction back and surfaces the
`IntegrityError` to the caller with the store unchanged, while the ATS sync
engine's `process_candidate` swallows the error and returns normally as
`("skipped", 0)` with the store unchanged — no reconciling update of the
pre-existing row happens in either path; the pre-existing row alone keeps
the key (the store is returned exactly as it was). -/
theorem C3_amended (pd : ProfileData) (linkedin_url : String)
    (source_id : Option Nat) (now : Nat) (db : DB) (c : Candidate) (sid : Nat)
    (hheld : db.people.any (holds_key (normalize_linkedin_url linkedin_url)) = true)
    (hc : ∃ u, candidate_linkedin_url c = some u ∧ u ≠ "" ∧
      normalize_linkedin_url u = normalize_linkedin_url linkedin_url) :
    insert_profile_data_resolved pd linkedin_url source_id now none db =
      (Except.error ScrapeErr.integrityError, db) ∧
    process_candidate_resolved c sid now none db = ("skipped", 0, db) := by
  constructor
  · unfold insert_profile_data_resolved
    simp [hheld]
  · rcases hc with ⟨u, hu, hne, hnorm⟩
    unfold process_candidate_resolved candidate_normalized_key
    rw [hu]
    simp [hne, hnorm, hheld]

/-- Claim C3, witness for the amended theorem on `raceDb`/`raceCand`. -/
theorem C3_amended_witness :
    insert_profile_data_resolved { id := some "p1" } "https://www.linkedin.com/in/x"
      none 500 none raceDb = (Except.error ScrapeErr.integrityError, raceDb) ∧
    process_candidate_resolved raceCand 4 500 none raceDb = ("skipped", 0, raceDb) :=
  C3_amended { id := some "p1" } "https://www.linkedin.com/in/x" none 500 raceDb
    raceCand 4 (by decide)
    ⟨"https://www.linkedin.com/in/x", by decide, by decide, by decide⟩

/-! ## Claim C2: full sync end-to-end -/

def c2Cand1 : Candidate := { id := some "cand-1" }
def c2Cand2 : Candidate := { id := some "cand-2" }
def c2Cand3 : Candidate := { id := some "cand-3" }

def c2Page1 : AshbyPage :=
  { results := [c2Cand1, c2Cand2], moreDataAvailable := true,
    nextCursor := some "cur-1" }

def c2Page2 : AshbyPage :=
  { results := [c2Cand3], moreDataAvailable := false,
    syncToken := some "tok-final" }

/-- Two pages; the second reports no more data and carries a sync token. -/
def c2Pages : List ApiResponse :=
  [ApiResponse.success c2Page1, ApiResponse.success c2Page2]

def c2Integ : IntegrationRow :=
  { id := 7, api_key_encrypted := "enc", sync_token := none, is_active := true,
    created_at := 5 }

/-- A store with one active integration and no stored token. -/
def c2Db : DB := { ashby_integrations := [c2Integ] }

/-- Claim C2, evaluation at the failing input: a full sync over two pages
whose final page carries sync token `tok-final`.  The job completes with the
correct processed count (3 = total candidates across both pages) and the
generator really did end by returning that token — but the stored
`sync_token` on the active integration is still `none` and `last_sync_at`
was never stamped: the `for` statement discards the generator's `return`
value (it travels inside `StopIteration`), so `final_sync_token` stays
`None` and the token-persisting block never runs. -/
theorem C2_sync_token_never_stored :
    (sync_candidates c2Pages false 1000 c2Db).1 =
      SyncResult.ok { candidates_processed := 3, candidates_created := 3,
                      candidates_updated := 0, candidates_skipped := 0 } 1 ∧
    ((sync_candidates c2Pages false 1000 c2Db).2.1.ashby_sync_jobs.map
      (fun j => (j.id, j.status, j.candidates_processed, j.candidates_created))) =
      [(1, "completed", 3, 3)] ∧
    (sync_candidates_full_gen c2Pages).2 = GenOutcome.finished (some "tok-final") ∧
    ((sync_candidates c2Pages false 1000 c2Db).2.1.ashby_integrations.map
      (fun i => (i.sync_token, i.last_sync_at))) = [(none, none)] := by decide

/-! ## Claim C4: incremental sync with an expired token -/

def c4Integ : IntegrationRow :=
  { id := 3, api_key_encrypted := "enc", sync_token := some "old-token",
    is_active := true, created_at := 2 }

/-- A store with one active integration holding a (now expired) token and no
Ashby source row yet. -/
def c4Db : DB := { ashby_integrations := [c4Integ] }

def c4Responses : List ApiResponse := [ApiResponse.apiError ["sync_token_expired"]]

/-- Claim C4, counterexample: on an incremental run whose stored token the
provider reports expired, the engine does NOT perform "zero datastore writes
other than updating the sync job's status/error fields": before the error
surfaces it has already created the `Ashby Candidates` source row (the store
had none) and the SyncJob record itself. -/
theorem C4_counterexample :
    c4Db.sources = [] ∧
    ((sync_candidates c4Responses true 100 c4Db).2.1.sources.map
      (fun s => s.source_type)) = ["ashby"] ∧
    (sync_candidates c4Responses true 100 c4Db).1 =
      SyncResult.raised "Sync token expired. Need to perform full sync." 1 := by
  decide

/-- First step of the incremental generator on a `sync_token_expired` API
error: nothing is yielded and the dedicated full-sync-required message is
raised. -/
lemma incremental_gen_expired (errs : List String) (rest : List ApiResponse)
    (hexp : containsSub ("Ashby API error: " ++ String.intercalate ", " errs).data
      "sync_token_expired".data = true) :
    sync_candidates_incremental_gen (ApiResponse.apiError errs :: rest) =
      ([], GenOutcome.raised "Sync token expired. Need to perform full sync.") := by
  have h : sync_candidates_incremental_gen (ApiResponse.apiError errs :: rest) =
      (if containsSub ("Ashby API error: " ++ String.intercalate ", " errs).data
          "sync_token_expired".data = true then
        ([], GenOutcome.raised "Sync token expired. Need to perform full sync.")
      else
        ([], GenOutcome.raised ("Ashby API error: " ++ String.intercalate ", " errs))) :=
    rfl
  rw [h, if_pos hexp]

/-- `update_sync_job(job_id, status="failed", error_message=msg, **stats)`
with zeroed counters. -/
def failedUpdate (msg : String) : JobUpdate :=
  { statsUpdate {} with status := some "failed", error_message := some msg }

/-- Shape of a `sync_candidates` run whose generator raises before yielding
anything: the job is created after the sweep, nothing is processed, and the
job is marked failed with the raised message. -/
lemma sync_candidates_raised_empty (responses : List ApiResponse) (inc : Bool)
    (now : Nat) (db : DB) (integ : IntegrationRow) (msg : String)
    (hactive : get_active_integration db = some integ)
    (hgen : (if inc && truthyOpt integ.sync_token then
        sync_candidates_incremental_gen responses
      else sync_candidates_full_gen responses) = ([], GenOutcome.raised msg)) :
    sync_candidates responses inc now db =
      (SyncResult.raised msg db.next_job_id,
       update_sync_job db.next_job_id (failedUpdate msg) now
         (create_or_get_ashby_source
           (create_sync_job integ.id (if inc then "incremental" else "initial") now
             (mark_stale_jobs_as_failed 30 now db)).2).2,
       [DBEvent.sweepStale, DBEvent.jobCreated db.next_job_id]) := by
  have h0 : sync_candidates responses inc now db =
      sync_candidates_active integ responses inc now db := by
    unfold sync_candidates
    rw [hactive]
  rw [h0]
  unfold sync_candidates_active
  rw [hgen]
  rfl

lemma mark_stale_frame (m now : Nat) (db : DB) :
    (mark_stale_jobs_as_failed m now db).people = db.people ∧
    (mark_stale_jobs_as_failed m now db).people_sources = db.people_sources ∧
    (mark_stale_jobs_as_failed m now db).ashby_integrations = db.ashby_integrations ∧
    (mark_stale_jobs_as_failed m now db).sources = db.sources :=
  ⟨rfl, rfl, rfl, rfl⟩

lemma create_sync_job_frame (iid : Nat) (jt : String) (now : Nat) (db : DB) :
    ((create_sync_job iid jt now db).2).people = db.people ∧
    ((create_sync_job iid jt now db).2).people_sources = db.people_sources ∧
    ((create_sync_job iid jt now db).2).ashby_integrations = db.ashby_integrations ∧
    ((create_sync_job iid jt now db).2).sources = db.sources :=
  ⟨rfl, rfl, rfl, rfl⟩

lemma create_or_get_source_frame (db : DB) :
    ((create_or_get_ashby_source db).2).people = db.people ∧
    ((create_or_get_ashby_source db).2).people_sources = db.people_sources ∧
    ((create_or_get_ashby_source db).2).ashby_integrations = db.ashby_integrations ∧
    ((create_or_get_ashby_source db).2).ashby_sync_jobs = db.ashby_sync_jobs ∧
    (((create_or_get_ashby_source db).2).sources = db.sources ∨
      ∃ s, ((create_or_get_ashby_source db).2).sources = db.sources ++ [s] ∧
        s.source_type = "ashby") := by
  unfold create_or_get_ashby_source
  cases hfind : db.sources.find? (fun s => decide (s.source_type = "ashby")) with
  | none => exact ⟨rfl, rfl, rfl, rfl, Or.inr ⟨_, rfl, rfl⟩⟩
  | some s => exact ⟨rfl, rfl, rfl, rfl, Or.inl rfl⟩

lemma update_sync_job_frame (jid : Nat) (u : JobUpdate) (now : Nat) (db : DB) :
    (update_sync_job jid u now db).people = db.people ∧
    (update_sync_job jid u now db).people_sources = db.people_sources ∧
    (update_sync_job jid u now db).ashby_integrations = db.ashby_integrations ∧
    (update_sync_job jid u now db).sources = db.sources :=
  ⟨rfl, rfl, rfl, rfl⟩

/-- Claim C4, amended: on an incremental run whose stored token the provider
reports expired, the engine raises an `AshbyAPIError` whose message is the
dedicated "Sync token expired. Need to perform full sync." (the error is
distinguishable by message only — the exception class is the generic
`AshbyAPIError`); it writes no person and no membership rows and leaves the
integrations table untouched; but it DOES create the SyncJob record (marked
`failed` with that message and a completion timestamp) and creates the
Ashby source row when none exists, and the stale-job sweep may update other
job rows. -/
theorem C4_expired_token (errs : List String) (rest : List ApiResponse) (now : Nat)
    (db : DB) (integ : IntegrationRow)
    (hactive : get_active_integration db = some integ)
    (htok : truthyOpt integ.sync_token = true)
    (hexp : containsSub ("Ashby API error: " ++ String.intercalate ", " errs).data
      "sync_token_expired".data = true) :
    (sync_candidates (ApiResponse.apiError errs :: rest) true now db).1 =
      SyncResult.raised "Sync token expired. Need to perform full sync."
        db.next_job_id ∧
    (sync_candidates (ApiResponse.apiError errs :: rest) true now db).2.1.people =
      db.people ∧
    (sync_candidates (ApiResponse.apiError errs :: rest) true now db).2.1.people_sources =
      db.people_sources ∧
    (sync_candidates (ApiResponse.apiError errs :: rest) true now db).2.1.ashby_integrations =
      db.ashby_integrations ∧
    ((sync_candidates (ApiResponse.apiError errs :: rest) true now db).2.1.sources =
        db.sources ∨
      ∃ s, (sync_candidates (ApiResponse.apiError errs :: rest) true now db).2.1.sources =
        db.sources ++ [s] ∧ s.source_type = "ashby") ∧
    (∃ j ∈ (sync_candidates (ApiResponse.apiError errs :: rest) true now db).2.1.ashby_sync_jobs,
      j.id = db.next_job_id ∧ j.status = "failed" ∧
      j.error_message = some "Sync token expired. Need to perform full sync." ∧
      j.completed_at = some now) := by
  have hgen0 := incremental_gen_expired errs rest hexp
  have hgen : (if true && truthyOpt integ.sync_token then
      sync_candidates_incremental_gen (ApiResponse.apiError errs :: rest)
    else sync_candidates_full_gen (ApiResponse.apiError errs :: rest)) =
      ([], GenOutcome.raised "Sync token expired. Need to perform full sync.") := by
    rw [if_pos (by simp [htok]), hgen0]
  have hmain := sync_candidates_raised_empty (ApiResponse.apiError errs :: rest)
    true now db integ "Sync token expired. Need to perform full sync." hactive hgen
  rw [hmain]
  set dbA := mark_stale_jobs_as_failed 30 now db with hA
  set dbB := (create_sync_job integ.id (if true then "incremental" else "initial")
    now dbA).2 with hB
  set dbC := (create_or_get_ashby_source dbB).2 with hC
  have fA := mark_stale_frame 30 now db
  have fB := create_sync_job_frame integ.id
    (if true then "incremental" else "initial") now dbA
  have fC := create_or_get_source_frame dbB
  have fD := update_sync_job_frame db.next_job_id
    (failedUpdate "Sync token expired. Need to perform full sync.") now dbC
  refine ⟨rfl, ?_, ?_, ?_, ?_, ?_⟩
  · rw [fD.1, fC.1, fB.1, fA.1]
  · rw [fD.2.1, fC.2.1, fB.2.1, fA.2.1]
  · rw [fD.2.2.1, fC.2.2.1, fB.2.2.1, fA.2.2.1]
  · rcases fC.2.2.2.2 with hs | ⟨s, hs, hty⟩
    · exact Or.inl (by rw [fD.2.2.2, hs, fB.2.2.2, fA.2.2.2])
    · exact Or.inr ⟨s, by rw [fD.2.2.2, hs, fB.2.2.2, fA.2.2.2], hty⟩
  · have hjobsC : dbC.ashby_sync_jobs =
        dbA.ashby_sync_jobs ++
          [{ id := dbA.next_job_id, integration_id := integ.id,
             job_type := if true then "incremental" else "initial",
             status := "running", started_at := now }] := by
      rw [fC.2.2.2.1]
      rfl
    have hid : dbA.next_job_id = db.next_job_id := rfl
    unfold update_sync_job
    refine ⟨?_, ?_⟩
    · exact { id := db.next_job_id, integration_id := integ.id,
              job_type := if true then "incremental" else "initial",
              status := "failed", started_at := now, completed_at := some now,
              error_message :=
                some "Sync token expired. Need to perform full sync." }
    · refine ⟨?_, rfl, rfl, rfl, rfl⟩
      apply List.mem_map.mpr
      refine ⟨{ id := db.next_job_id, integration_id := integ.id,
                job_type := if true then "incremental" else "initial",
                status := "running", started_at := now }, ?_, ?_⟩
      · rw [hjobsC, hid]
        exact List.mem_append.mpr (Or.inr (List.mem_singleton.mpr rfl))
      · simp [failedUpdate, statsUpdate]

/-- Claim C4, witness: the amended theorem at `c4Db` (expired stored token,
no Ashby source yet). -/
theorem C4_expired_token_witness :
    (sync_candidates (ApiResponse.apiError ["sync_token_expired"] :: []) true 100 c4Db).1 =
      SyncResult.raised "Sync token expired. Need to perform full sync."
        c4Db.next_job_id ∧
    (sync_candidates (ApiResponse.apiError ["sync_token_expired"] :: []) true 100 c4Db).2.1.people =
      c4Db.people ∧
    (sync_candidates (ApiResponse.apiError ["sync_token_expired"] :: []) true 100 c4Db).2.1.people_sources =
      c4Db.people_sources ∧
    (sync_candidates (ApiResponse.apiError ["sync_token_expired"] :: []) true 100 c4Db).2.1.ashby_integrations =
      c4Db.ashby_integrations ∧
    ((sync_candidates (ApiResponse.apiError ["sync_token_expired"] :: []) true 100 c4Db).2.1.sources =
        c4Db.sources ∨
      ∃ s, (sync_candidates (ApiResponse.apiError ["sync_token_expired"] :: []) true 100 c4Db).2.1.sources =
        c4Db.sources ++ [s] ∧ s.source_type = "ashby") ∧
    (∃ j ∈ (sync_candidates (ApiResponse.apiError ["sync_token_expired"] :: []) true 100 c4Db).2.1.ashby_sync_jobs,
      j.id = c4Db.next_job_id ∧ j.status = "failed" ∧
      j.error_message = some "Sync token expired. Need to perform full sync." ∧
      j.completed_at = some 100) :=
  C4_expired_token ["sync_token_expired"] [] 100 c4Db c4Integ
    (by decide) (by decide) (by decide)

/-! ## Claim C9: the stale-job sweep -/

lemma process_candidate_resolved_jobs (c : Candidate) (sid now : Nat)
    (ex : Option Nat) (db : DB) :
    ((process_candidate_resolved c sid now ex db).2.2).ashby_sync_jobs =
      db.ashby_sync_jobs := by
  unfold process_candidate_resolved
  rcases ex with _ | uid
  · dsimp only
    split
    · rfl
    · rfl
  · dsimp only
    split
    · rfl
    · rfl

lemma process_batch_jobs (cands : List Candidate) (sid now : Nat)
    (stats : SyncStats) (db : DB) :
    ((process_batch cands sid now stats db).2).ashby_sync_jobs =
      db.ashby_sync_jobs := by
  induction cands generalizing stats db with
  | nil => rfl
  | cons cand tl ih =>
    have hstep : process_batch (cand :: tl) sid now stats db =
        process_batch tl sid now
          (let action := (process_candidate cand sid now db).1
           let s1 := { stats with
             candidates_processed := stats.candidates_processed + 1 }
           if action = "created" then
             { s1 with candidates_created := s1.candidates_created + 1 }
           else if action = "updated" then
             { s1 with candidates_updated := s1.candidates_updated + 1 }
           else
             { s1 with candidates_skipped := s1.candidates_skipped + 1 })
          ((process_candidate cand sid now db).2.2) := rfl
    rw [hstep, ih]
    exact process_candidate_resolved_jobs cand sid now _ db

lemma update_sync_job_keeps_other (jid : Nat) (u : JobUpdate) (now : Nat)
    (db : DB) (j : SyncJobRow) (hj : j ∈ db.ashby_sync_jobs) (hne : j.id ≠ jid) :
    j ∈ (update_sync_job jid u now db).ashby_sync_jobs := by
  unfold update_sync_job
  apply List.mem_map.mpr
  exact ⟨j, hj, by rw [if_neg hne]⟩

lemma sync_process_batches_keeps_other (batches : List (List Candidate))
    (sid jid now : Nat) (stats : SyncStats) (db : DB) (j : SyncJobRow)
    (hj : j ∈ db.ashby_sync_jobs) (hne : j.id ≠ jid) :
    j ∈ ((sync_process_batches batches sid jid now stats db).2).ashby_sync_jobs := by
  induction batches generalizing stats db with
  | nil => exact hj
  | cons b bs ih =>
    have hstep : sync_process_batches (b :: bs) sid jid now stats db =
        sync_process_batches bs sid jid now (process_batch b sid now stats db).1
          (update_sync_job jid (statsUpdate (process_batch b sid now stats db).1)
            now (process_batch b sid now stats db).2) := rfl
    rw [hstep]
    apply ih
    apply update_sync_job_keeps_other _ _ _ _ _ _ hne
    rw [process_batch_jobs]
    exact hj

lemma create_or_get_source_jobs (db : DB) :
    ((create_or_get_ashby_source db).2).ashby_sync_jobs = db.ashby_sync_jobs :=
  (create_or_get_source_frame db).2.2.2.1

/-- The row the sweep writes for a stale running job. -/
def sweptJob (now : Nat) (j : SyncJobRow) : SyncJobRow :=
  { j with status := "failed",
           error_message := some "Job marked as failed due to timeout",
           completed_at := some now }

/-- Every stale running job, once marked failed by the sweep, survives the
rest of the run unchanged (the run only ever updates its own job row). -/
lemma swept_job_survives (batches : List (List Candidate)) (sid now : Nat)
    (u : JobUpdate) (jt : String) (iid : Nat) (db : DB) (j : SyncJobRow)
    (hj : j ∈ db.ashby_sync_jobs) (hrun : j.status = "running")
    (hstale : j.started_at + 30 < now) (hlt : j.id < db.next_job_id) :
    sweptJob now j ∈
      (update_sync_job db.next_job_id u now
        (sync_process_batches batches sid db.next_job_id now {}
          (create_or_get_ashby_source
            (create_sync_job iid jt now
              (mark_stale_jobs_as_failed 30 now db)).2).2).2).ashby_sync_jobs := by
  have h1 : sweptJob now j ∈ (mark_stale_jobs_as_failed 30 now db).ashby_sync_jobs := by
    unfold mark_stale_jobs_as_failed
    apply List.mem_map.mpr
    exact ⟨j, hj, by rw [if_pos ⟨hrun, hstale⟩]; rfl⟩
  have h2 : sweptJob now j ∈ ((create_sync_job iid jt now
      (mark_stale_jobs_as_failed 30 now db)).2).ashby_sync_jobs := by
    unfold create_sync_job
    exact List.mem_append.mpr (Or.inl h1)
  have h3 : sweptJob now j ∈ ((create_or_get_ashby_source
      (create_sync_job iid jt now
        (mark_stale_jobs_as_failed 30 now db)).2).2).ashby_sync_jobs := by
    rw [create_or_get_source_jobs]
    exact h2
  have hne : (sweptJob now j).id ≠ db.next_job_id := by
    have hidj : (sweptJob now j).id = j.id := rfl
    rw [hidj]
    exact Nat.ne_of_lt hlt
  apply update_sync_job_keeps_other _ _ _ _ _ _ hne
  exact sync_process_batches_keeps_other _ _ _ _ _ _ _ h3 hne

/-- Claim C9: with an active integration, every sync invocation emits the
stale-job sweep strictly before its own SyncJob record is created (the
event trace is exactly `[sweepStale, jobCreated job_id]`), and every job of
the initial store still `running` and older than the 30-minute default age
is, in the final store, `failed` with the timeout reason and a completion
timestamp.  (The job-id hypothesis says the `SERIAL` id counter is ahead of
all existing rows.) -/
theorem C9_sweep_before_job (responses : List ApiResponse) (inc : Bool)
    (now : Nat) (db : DB) (integ : IntegrationRow)
    (hactive : get_active_integration db = some integ)
    (hids : ∀ j ∈ db.ashby_sync_jobs, j.id < db.next_job_id) :
    (sync_candidates responses inc now db).2.2 =
      [DBEvent.sweepStale, DBEvent.jobCreated db.next_job_id] ∧
    (∀ j ∈ db.ashby_sync_jobs, j.status = "running" → j.started_at + 30 < now →
      sweptJob now j ∈
        ((sync_candidates responses inc now db).2.1).ashby_sync_jobs) := by
  have h0 : sync_candidates responses inc now db =
      sync_candidates_active integ responses inc now db := by
    unfold sync_candidates
    rw [hactive]
  rw [h0]
  unfold sync_candidates_active
  rcases hbo : (if inc && truthyOpt integ.sync_token then
      sync_candidates_incremental_gen responses
    else sync_candidates_full_gen responses) with ⟨batches, outcome⟩
  cases outcome with
  | raised msg =>
    refine ⟨rfl, ?_⟩
    intro j hj hrun hstale
    exact swept_job_survives batches _ now _ _ integ.id db j hj hrun hstale
      (hids j hj)
  | finished tok =>
    refine ⟨rfl, ?_⟩
    intro j hj hrun hstale
    exact swept_job_survives batches _ now _ _ integ.id db j hj hrun hstale
      (hids j hj)

/-- A store with a stale running job (31 minutes old at time 1900), one
fresh running job, and an active integration. -/
def c9Db : DB :=
  { ashby_integrations := [c2Integ],
    ashby_sync_jobs :=
      [{ id := 1, integration_id := 7, job_type := "initial",
         status := "running", started_at := 1869 },
       { id := 2, integration_id := 7, job_type := "initial",
         status := "running", started_at := 1895 }],
    next_job_id := 3 }

/-- Claim C9, witness: the 31-minute-old running job 1 of `c9Db` is failed
with the timeout message by the next invocation, whose trace shows the
sweep strictly before its own job creation. -/
theorem C9_sweep_before_job_witness :
    (sync_candidates [ApiResponse.success { results := [] }] false 1900 c9Db).2.2 =
      [DBEvent.sweepStale, DBEvent.jobCreated c9Db.next_job_id] ∧
    (∀ j ∈ c9Db.ashby_sync_jobs, j.status = "running" → j.started_at + 30 < 1900 →
      sweptJob 1900 j ∈
        ((sync_candidates [ApiResponse.success { results := [] }] false 1900
          c9Db).2.1).ashby_sync_jobs) :=
  C9_sweep_before_job [ApiResponse.success { results := [] }] false 1900 c9Db
    c2Integ (by decide) (by decide)

/-! ## Claim C5: ordered identity resolution -/

/-- The membership metadata overwrite performed when a matched candidate is
already a member of the ATS source (lines 283-287). -/
def updatedMemberships (c : Candidate) (source_id now uid : Nat)
    (rows : List PeopleSourceRow) : List PeopleSourceRow :=
  rows.map (fun ps =>
    if ps.user_id = uid ∧ ps.source_id = source_id then
      { ps with source_metadata := some (format_candidate_for_storage c now),
                linkedin_url := (candidate_linkedin_url c).getD "" }
    else ps)

/-- The membership row inserted under the ATS source (lines 290-293 and
315-318). -/
def newMembership (c : Candidate) (source_id now psid uid : Nat) : PeopleSourceRow :=
  { id := psid, user_id := uid, source_id := source_id,
    linkedin_url := (candidate_linkedin_url c).getD "",
    source_metadata := some (format_candidate_for_storage c now) }

/-- The store state after a candidate is treated as new: a `pending` person
carrying the candidate's canonical key plus a membership under the ATS
source (lines 304-321). -/
def createdState (c : Candidate) (source_id now : Nat) (db : DB) : DB :=
  { db with
    people := db.people ++
      [{ user_id := db.next_user_id,
         canonical_linkedin_url := candidate_normalized_key c,
         scrape_status := "pending" }],
    people_sources := db.people_sources ++
      [newMembership c source_id now db.next_ps_id db.next_user_id],
    next_user_id := db.next_user_id + 1,
    next_ps_id := db.next_ps_id + 1 }

/-- What processing a candidate matched to person `uid` must do: update the
ATS-source membership's metadata in place when it exists, else add the
membership — and count the candidate `updated` either way. -/
def membershipUpsertSpec (c : Candidate) (source_id now : Nat) (db : DB)
    (uid : Nat) : Prop :=
  ((db.people_sources.any (fun ps =>
      decide (ps.user_id = uid ∧ ps.source_id = source_id))) = true →
    process_candidate c source_id now db =
      ("updated", uid, { db with
        people_sources := updatedMemberships c source_id now uid db.people_sources })) ∧
  ((db.people_sources.any (fun ps =>
      decide (ps.user_id = uid ∧ ps.source_id = source_id))) = false →
    process_candidate c source_id now db =
      ("updated", uid, { db with
        people_sources := db.people_sources ++
          [newMembership c source_id now db.next_ps_id uid],
        next_ps_id := db.next_ps_id + 1 }))

lemma find_existing_by_id (c : Candidate) (db : DB) (aid : String)
    (ps : PeopleSourceRow) (hcid : c.id = some aid) (haid : aid ≠ "")
    (hfind : db.people_sources.find? (membership_carries_ashby_id db aid) = some ps) :
    find_existing_candidate c db = some ps.user_id := by
  unfold find_existing_candidate
  rw [hcid]
  dsimp only
  rw [if_pos haid, hfind]

lemma find_existing_by_key (c : Candidate) (db : DB) (u : String) (p : PersonRow)
    (hnone : ∀ aid, c.id = some aid → aid ≠ "" →
      db.people_sources.find? (membership_carries_ashby_id db aid) = none)
    (hu : candidate_linkedin_url c = some u) (hne : u ≠ "")
    (hfind : db.people.find? (holds_key (normalize_linkedin_url u)) = some p) :
    find_existing_candidate c db = some p.user_id := by
  unfold find_existing_candidate
  cases hcid : c.id with
  | none =>
    dsimp only
    rw [hu]
    dsimp only
    rw [if_pos hne, hfind]
  | some aid =>
    dsimp only
    by_cases haid : aid = ""
    · rw [if_neg (by simp [haid])]
      rw [hu]
      dsimp only
      rw [if_pos hne, hfind]
    · rw [if_pos haid, hnone aid hcid haid]
      dsimp only
      rw [hu]
      dsimp only
      rw [if_pos hne, hfind]

lemma find_existing_none (c : Candidate) (db : DB)
    (hnone : ∀ aid, c.id = some aid → aid ≠ "" →
      db.people_sources.find? (membership_carries_ashby_id db aid) = none)
    (hkey : ∀ u, candidate_linkedin_url c = some u → u ≠ "" →
      db.people.find? (holds_key (normalize_linkedin_url u)) = none) :
    find_existing_candidate c db = none := by
  unfold find_existing_candidate
  cases hcid : c.id with
  | none =>
    dsimp only
    cases hu : candidate_linkedin_url c with
    | none => rfl
    | some u =>
      dsimp only
      by_cases hne : u = ""
      · rw [if_neg (by simp [hne])]
      · rw [if_pos hne, hkey u hu hne]
  | some aid =>
    dsimp only
    by_cases haid : aid = ""
    · rw [if_neg (by simp [haid])]
      dsimp only
      cases hu : candidate_linkedin_url c with
      | none => rfl
      | some u =>
        dsimp only
        by_cases hne : u = ""
        · rw [if_neg (by simp [hne])]
        · rw [if_pos hne, hkey u hu hne]
    · rw [if_pos haid, hnone aid hcid haid]
      dsimp only
      cases hu : candidate_linkedin_url c with
      | none => rfl
      | some u =>
        dsimp only
        by_cases hne : u = ""
        · rw [if_neg (by simp [hne])]
        · rw [if_pos hne, hkey u hu hne]

lemma process_candidate_matched (c : Candidate) (source_id now : Nat) (db : DB)
    (uid : Nat) (hfe : find_existing_candidate c db = some uid) :
    membershipUpsertSpec c source_id now db uid := by
  constructor
  · intro hmem
    unfold process_candidate
    rw [hfe]
    unfold process_candidate_resolved
    dsimp only
    rw [if_pos hmem]
    rfl
  · intro hnomem
    unfold process_candidate
    rw [hfe]
    unfold process_candidate_resolved
    dsimp only
    rw [if_neg (by rw [hnomem]; exact Bool.false_ne_true)]
    rfl

/-- Claim C5: identity resolution follows the claimed order with first match
winning.  (1) a membership whose metadata carries the ATS candidate id
resolves the candidate to that membership's person; (2) otherwise the person
holding the normalized LinkedIn key wins; (3) otherwise a new `pending`
person is created together with a membership under the ATS source and the
candidate counts `created`.  In cases (1) and (2) the ATS-source membership
is updated in place when it exists, else added — `updated` either way
(`membershipUpsertSpec`). -/
theorem C5_resolution_order (c : Candidate) (source_id now : Nat) (db : DB) :
    (∀ aid ps, c.id = some aid → aid ≠ "" →
      db.people_sources.find? (membership_carries_ashby_id db aid) = some ps →
      membershipUpsertSpec c source_id now db ps.user_id) ∧
    ((∀ aid, c.id = some aid → aid ≠ "" →
        db.people_sources.find? (membership_carries_ashby_id db aid) = none) →
      ∀ u p, candidate_linkedin_url c = some u → u ≠ "" →
        db.people.find? (holds_key (normalize_linkedin_url u)) = some p →
        membershipUpsertSpec c source_id now db p.user_id) ∧
    ((∀ aid, c.id = some aid → aid ≠ "" →
        db.people_sources.find? (membership_carries_ashby_id db aid) = none) →
      (∀ u, candidate_linkedin_url c = some u → u ≠ "" →
        db.people.find? (holds_key (normalize_linkedin_url u)) = none) →
      process_candidate c source_id now db =
        ("created", db.next_user_id, createdState c source_id now db)) := by
  refine ⟨?_, ?_, ?_⟩
  · intro aid ps hcid haid hfind
    exact process_candidate_matched c source_id now db ps.user_id
      (find_existing_by_id c db aid ps hcid haid hfind)
  · intro hnone u p hu hne hfind
    exact process_candidate_matched c source_id now db p.user_id
      (find_existing_by_key c db u p hnone hu hne hfind)
  · intro hnone hkey
    unfold process_candidate
    rw [find_existing_none c db hnone hkey]
    unfold process_candidate_resolved
    dsimp only
    have hconf : (match candidate_normalized_key c with
        | some nurl => db.people.any (holds_key nurl)
        | none => false) = false := by
      unfold candidate_normalized_key
      cases hu : candidate_linkedin_url c with
      | none => rfl
      | some u =>
        dsimp only
        by_cases hne : u = ""
        · rw [if_neg (by simp [hne])]
        · rw [if_pos hne]
          dsimp only
          rw [List.any_eq_false]
          intro p hp
          have := List.find?_eq_none.mp (hkey u hu hne) p hp
          simpa using this
    rw [if_neg (by rw [hconf]; exact Bool.false_ne_true)]
    rfl

def c5CandA : Candidate := { id := some "A1" }

def c5CandB : Candidate :=
  { id := some "B9",
    socialLinks := [{ linkType := some "LinkedIn",
                      url := some "https://www.linkedin.com/in/bob" }] }

def c5CandC : Candidate :=
  { id := some "C7",
    socialLinks := [{ linkType := some "LinkedIn",
                      url := some "https://www.linkedin.com/in/carol" }] }

def c5P1 : PersonRow :=
  { user_id := 1, canonical_linkedin_url := some "https://www.linkedin.com/in/ann",
    scrape_status := "pending" }

def c5P2 : PersonRow :=
  { user_id := 2, canonical_linkedin_url := some "https://www.linkedin.com/in/bob",
    scrape_status := "scraped" }

def c5PS1 : PeopleSourceRow :=
  { id := 1, user_id := 1, source_id := 4,
    linkedin_url := "https://www.linkedin.com/in/ann",
    source_metadata := some (format_candidate_for_storage c5CandA 50) }

/-- Two known people; person 1 is an Ashby-source member whose metadata
carries candidate id `A1`. -/
def c5Db : DB :=
  { people := [c5P1, c5P2], people_sources := [c5PS1],
    next_user_id := 3, next_ps_id := 2 }

/-- Claim C5, witness: candidate `A1` resolves by membership metadata and is
updated in place; candidate `B9` resolves by LinkedIn key and gets a
membership added (`updated`); candidate `C7` matches nothing and is created
as a pending person with an ATS membership. -/
theorem C5_resolution_order_witness :
    process_candidate c5CandA 4 100 c5Db =
      ("updated", 1, { c5Db with
        people_sources := updatedMemberships c5CandA 4 100 1 c5Db.people_sources }) ∧
    process_candidate c5CandB 4 100 c5Db =
      ("updated", 2, { c5Db with
        people_sources := c5Db.people_sources ++
          [newMembership c5CandB 4 100 c5Db.next_ps_id 2],
        next_ps_id := c5Db.next_ps_id + 1 }) ∧
    process_candidate c5CandC 4 100 c5Db =
      ("created", c5Db.next_user_id, createdState c5CandC 4 100 c5Db) := by
  have hA := C5_resolution_order c5CandA 4 100 c5Db
  have hB := C5_resolution_order c5CandB 4 100 c5Db
  have hC := C5_resolution_order c5CandC 4 100 c5Db
  refine ⟨?_, ?_, ?_⟩
  · exact (hA.1 "A1" c5PS1 rfl (by decide) (by decide)).1 (by decide)
  · refine (hB.2.1 ?_ "https://www.linkedin.com/in/bob" c5P2 (by decide)
      (by decide) (by decide)).2 (by decide)
    intro aid ha _hne
    have h2 : some "B9" = some aid := ha
    injection h2 with h3
    subst h3
    decide
  · refine hC.2.2 ?_ ?_
    · intro aid ha _hne
      have h2 : some "C7" = some aid := ha
      injection h2 with h3
      subst h3
      decide
    · intro u hu _hne
      have h2 : some "https://www.linkedin.com/in/carol" = some u := hu
      injection h2 with h3
      subst h3
      decide

/-! ## Claim C7: the profile upsert is idempotent -/

lemma upsertList_idem {α : Type} (keyMatch : α → Bool) (f : α → α) (newRow : α)
    (hknew : keyMatch newRow = true)
    (hf_eq : ∀ r, keyMatch r = true → f r = newRow)
    (hf_ne : ∀ r, keyMatch r = false → f r = r) (rows : List α) :
    upsertList keyMatch f newRow (upsertList keyMatch f newRow rows) =
      upsertList keyMatch f newRow rows := by
  unfold upsertList
  by_cases hany : rows.any keyMatch = true
  · rw [if_pos hany]
    have hany2 : (rows.map f).any keyMatch = true := by
      rcases List.any_eq_true.mp hany with ⟨r, hr, hkr⟩
      exact List.any_eq_true.mpr
        ⟨f r, List.mem_map_of_mem f hr, by rw [hf_eq r hkr]; exact hknew⟩
    rw [if_pos hany2, List.map_map]
    apply List.map_congr_left
    intro r _hr
    show f (f r) = f r
    by_cases hkr : keyMatch r = true
    · rw [hf_eq r hkr, hf_eq newRow hknew]
    · rw [hf_ne r (Bool.eq_false_iff.mpr hkr), hf_ne r (Bool.eq_false_iff.mpr hkr)]
  · rw [if_neg hany]
    have hall : ∀ r ∈ rows, keyMatch r = false := by
      intro r hr
      rcases Bool.eq_false_or_eq_true (keyMatch r) with h | h
      · exact absurd (List.any_eq_true.mpr ⟨r, hr, h⟩) hany
      · exact h
    have hany2 : (rows ++ [newRow]).any keyMatch = true :=
      List.any_eq_true.mpr ⟨newRow, List.mem_append.mpr
        (Or.inr (List.mem_singleton.mpr rfl)), hknew⟩
    rw [if_pos hany2, List.map_append]
    have h1 : rows.map f = rows := by
      have hcg : rows.map f = rows.map id :=
        List.map_congr_left (fun r hr => hf_ne r (hall r hr))
      rw [hcg, List.map_id]
    have h2 : [newRow].map f = [newRow] := by
      simp [hf_eq newRow hknew]
    rw [h1, h2]

lemma filter_idem {α : Type} (p : α → Bool) (l : List α) :
    (l.filter p).filter p = l.filter p := by
  induction l with
  | nil => rfl
  | cons a tl ih =>
    by_cases ha : p a = true
    · rw [List.filter_cons_of_pos ha, List.filter_cons_of_pos ha, ih]
    · rw [List.filter_cons_of_neg (by simpa using ha), ih]

/-- Deleting a person's rows after they were just replaced gives the same
deletion again: the appended rows all belong to the person. -/
lemma filter_replace_idem {α : Type} (p : α → Bool) (rows newRows : List α)
    (hnew : ∀ r ∈ newRows, p r = false) :
    (rows.filter p ++ newRows).filter p = rows.filter p := by
  rw [List.filter_append, filter_idem]
  have h1 : newRows.filter p = [] := by
    rw [List.filter_eq_nil_iff]
    intro a ha
    simp [hnew a ha]
  rw [h1, List.append_nil]

lemma markScraped_user_id (pd : ProfileData) (now : Nat) (n : String)
    (uid : Nat) (p : PersonRow) :
    (markScraped pd now n uid p).user_id = p.user_id := by
  unfold markScraped
  split <;> rfl

lemma markScraped_of_ne (pd : ProfileData) (now : Nat) (n : String)
    (uid : Nat) (p : PersonRow) (h : p.user_id ≠ uid) :
    markScraped pd now n uid p = p := by
  unfold markScraped
  rw [if_neg h]

lemma markScraped_of_eq (pd : ProfileData) (now : Nat) (n : String)
    (uid : Nat) (p : PersonRow) (h : p.user_id = uid) :
    markScraped pd now n uid p = scrapedNewPerson pd now n p.user_id := by
  unfold markScraped scrapedNewPerson
  rw [if_pos h]

lemma markScraped_idem (pd : ProfileData) (now : Nat) (n : String)
    (uid : Nat) (p : PersonRow) :
    markScraped pd now n uid (markScraped pd now n uid p) =
      markScraped pd now n uid p := by
  by_cases h : p.user_id = uid
  · rw [markScraped_of_eq pd now n uid p h,
      markScraped_of_eq pd now n uid (scrapedNewPerson pd now n p.user_id) h]
    rfl
  · rw [markScraped_of_ne pd now n uid p h, markScraped_of_ne pd now n uid p h]

/-- If `find?` resolves `x` in `l` and `f` preserves matching on `x` while
creating no new matches, then `find?` on the mapped list resolves `f x`. -/
lemma find?_map_of_find? {α : Type} (l : List α) (pr : α → Bool) (f : α → α)
    (x : α) (hf : l.find? pr = some x) (hx : pr (f x) = true)
    (hmiss : ∀ y ∈ l, pr y = false → pr (f y) = false) :
    (l.map f).find? pr = some (f x) := by
  induction l with
  | nil => simp at hf
  | cons a tl ih =>
    by_cases ha : pr a = true
    · rw [List.find?_cons_of_pos _ ha] at hf
      injection hf with hfx
      subst hfx
      rw [List.map_cons, List.find?_cons_of_pos _ hx]
    · have ha' : pr a = false := by simpa using ha
      rw [List.find?_cons_of_neg _ ha] at hf
      rw [List.map_cons, List.find?_cons_of_neg _
        (by rw [hmiss a (List.mem_cons_self a tl) ha']; exact Bool.false_ne_true)]
      exact ih hf (fun y hy hpy => hmiss y (List.mem_cons_of_mem a hy) hpy)

lemma find?_append_none {α : Type} (l₁ l₂ : List α) (p : α → Bool)
    (h : l₁.find? p = none) : (l₁ ++ l₂).find? p = l₂.find? p := by
  induction l₁ with
  | nil => rfl
  | cons a tl ih =>
    by_cases ha : p a = true
    · rw [List.find?_cons_of_pos _ ha] at h
      exact absurd h (by simp)
    · rw [List.find?_cons_of_neg _ ha] at h
      rw [List.cons_append, List.find?_cons_of_neg _ ha]
      exact ih h

/-! Shape equations for `insert_profile_data` and its write phase. -/

lemma insert_profile_data_with_id (pd : ProfileData) (linkedin_url : String)
    (source_id : Option Nat) (now : Nat) (db : DB)
    (hid : truthyOpt pd.id = true) :
    insert_profile_data pd linkedin_url source_id now db =
      insert_profile_data_resolved pd linkedin_url source_id now
        ((db.people.find? (person_url_match linkedin_url
          (normalize_linkedin_url linkedin_url))).map (fun p => p.user_id)) db := by
  unfold insert_profile_data
  rw [if_neg (by simp [hid])]

/-- The store after the `UPDATE People ...` of lines 189-196. -/
def acquiredUpdateDb (pd : ProfileData) (now : Nat) (n : String) (uid : Nat)
    (db : DB) : DB :=
  { db with people := db.people.map (markScraped pd now n uid) }

/-- The store after the `INSERT INTO People ...` of lines 200-206. -/
def acquiredInsertDb (pd : ProfileData) (now : Nat) (n : String) (db : DB) : DB :=
  { db with
    people := db.people ++ [scrapedNewPerson pd now n db.next_user_id],
    next_user_id := db.next_user_id + 1 }

lemma resolved_some_free (pd : ProfileData) (linkedin_url : String)
    (source_id : Option Nat) (now uid : Nat) (db : DB)
    (h : urlTakenByOther db.people (normalize_linkedin_url linkedin_url) uid = false) :
    insert_profile_data_resolved pd linkedin_url source_id now (some uid) db =
      (Except.ok uid,
       profile_attribute_writes pd linkedin_url
         (normalize_linkedin_url linkedin_url) source_id now uid
         (acquiredUpdateDb pd now (normalize_linkedin_url linkedin_url) uid db)) := by
  unfold insert_profile_data_resolved
  dsimp only
  rw [if_neg (by rw [h]; exact Bool.false_ne_true)]
  rfl

lemma resolved_none_free (pd : ProfileData) (linkedin_url : String)
    (source_id : Option Nat) (now : Nat) (db : DB)
    (h : db.people.any (holds_key (normalize_linkedin_url linkedin_url)) = false) :
    insert_profile_data_resolved pd linkedin_url source_id now none db =
      (Except.ok db.next_user_id,
       profile_attribute_writes pd linkedin_url
         (normalize_linkedin_url linkedin_url) source_id now db.next_user_id
         (acquiredInsertDb pd now (normalize_linkedin_url linkedin_url) db)) := by
  unfold insert_profile_data_resolved
  dsimp only
  rw [if_neg (by rw [h]; exact Bool.false_ne_true)]
  rfl

lemma resolved_some_taken (pd : ProfileData) (linkedin_url : String)
    (source_id : Option Nat) (now uid : Nat) (db : DB)
    (h : urlTakenByOther db.people (normalize_linkedin_url linkedin_url) uid = true) :
    insert_profile_data_resolved pd linkedin_url source_id now (some uid) db =
      (Except.error ScrapeErr.integrityError, db) := by
  unfold insert_profile_data_resolved
  dsimp only
  rw [if_pos h]

lemma resolved_none_conflict (pd : ProfileData) (linkedin_url : String)
    (source_id : Option Nat) (now : Nat) (db : DB)
    (h : db.people.any (holds_key (normalize_linkedin_url linkedin_url)) = true) :
    insert_profile_data_resolved pd linkedin_url source_id now none db =
      (Except.error ScrapeErr.integrityError, db) := by
  unfold insert_profile_data_resolved
  dsimp only
  rw [if_pos h]

lemma writes_people_frame (pd : ProfileData) (u n : String) (src : Option Nat)
    (now uid : Nat) (db : DB) :
    (profile_attribute_writes pd u n src now uid db).people = db.people := by
  unfold profile_attribute_writes
  cases pd.geo <;> cases src <;> rfl

lemma writes_educations_eq (pd : ProfileData) (u n : String) (src : Option Nat)
    (now uid : Nat) (db : DB) :
    (profile_attribute_writes pd u n src now uid db).educations =
      db.educations.filter (fun r => decide (r.user_id ≠ uid)) ++
        pd.educations.map (eduRowOf uid) := by
  unfold profile_attribute_writes
  cases pd.geo <;> cases src <;> rfl

lemma writes_positions_eq (pd : ProfileData) (u n : String) (src : Option Nat)
    (now uid : Nat) (db : DB) :
    (profile_attribute_writes pd u n src now uid db).positions =
      db.positions.filter (fun r => decide (r.user_id ≠ uid)) ++
        pd.position.map (posRowOf uid) := by
  unfold profile_attribute_writes
  cases pd.geo <;> cases src <;> rfl

lemma writes_skills_eq (pd : ProfileData) (u n : String) (src : Option Nat)
    (now uid : Nat) (db : DB) :
    (profile_attribute_writes pd u n src now uid db).skills =
      db.skills.filter (fun r => decide (r.user_id ≠ uid)) ++
        (pd.skills.filter (fun sk => decide (sk.name.getD "" ≠ ""))).map
          (fun sk => SkillRow.mk uid (sk.name.getD "")) := by
  unfold profile_attribute_writes
  cases pd.geo <;> cases src <;> rfl

lemma writes_honors_eq (pd : ProfileData) (u n : String) (src : Option Nat)
    (now uid : Nat) (db : DB) :
    (profile_attribute_writes pd u n src now uid db).honors =
      db.honors.filter (fun r => decide (r.user_id ≠ uid)) ++
        (pd.honors.filter (fun ho => decide (ho.title.getD "" ≠ ""))).map
          (fun ho => HonorRow.mk uid (ho.title.getD "")) := by
  unfold profile_attribute_writes
  cases pd.geo <;> cases src <;> rfl

lemma writes_geo_eq (pd : ProfileData) (u n : String) (src : Option Nat)
    (now uid : Nat) (db : DB) :
    (profile_attribute_writes pd u n src now uid db).geo =
      (match pd.geo with
       | none => db.geo
       | some g =>
         upsertList (fun r => decide (r.user_id = uid))
           (fun (r : GeoRow) => if r.user_id = uid then geoRowOf uid g else r)
           (geoRowOf uid g) db.geo) := by
  unfold profile_attribute_writes
  cases pd.geo <;> cases src <;> rfl

/-- With pairwise-distinct keys, exactly one row carries the key of a known
member. -/
lemma countP_key_eq_one {α : Type} (key : α → Nat) (l : List α) (x : α)
    (hnd : (l.map key).Nodup) (hx : x ∈ l) :
    l.countP (fun q => decide (key q = key x)) = 1 := by
  have h1 : List.count (key x) (l.map key) = 1 :=
    List.count_eq_one_of_mem hnd (List.mem_map_of_mem key hx)
  rw [List.count_eq_countP, List.countP_map] at h1
  rw [← h1]
  apply List.countP_congr
  intro q _hq
  show decide (key q = key x) = true ↔ ((fun y => y == key x) ∘ key) q = true
  simp

/-- Running the attribute-write phase a second time (from a store whose
attribute tables are exactly what the first run left) reproduces the same
attribute tables: the delete-all-then-reinsert and the two upserts are
idempotent. -/
lemma writes_idem_tables (pd : ProfileData) (lu n : String) (src : Option Nat)
    (now uid : Nat) (A A2 : DB)
    (hE : A2.educations = (profile_attribute_writes pd lu n src now uid A).educations)
    (hP : A2.positions = (profile_attribute_writes pd lu n src now uid A).positions)
    (hS : A2.skills = (profile_attribute_writes pd lu n src now uid A).skills)
    (hH : A2.honors = (profile_attribute_writes pd lu n src now uid A).honors)
    (hG : A2.geo = (profile_attribute_writes pd lu n src now uid A).geo) :
    (profile_attribute_writes pd lu n src now uid A2).educations =
      (profile_attribute_writes pd lu n src now uid A).educations ∧
    (profile_attribute_writes pd lu n src now uid A2).positions =
      (profile_attribute_writes pd lu n src now uid A).positions ∧
    (profile_attribute_writes pd lu n src now uid A2).skills =
      (profile_attribute_writes pd lu n src now uid A).skills ∧
    (profile_attribute_writes pd lu n src now uid A2).honors =
      (profile_attribute_writes pd lu n src now uid A).honors ∧
    (profile_attribute_writes pd lu n src now uid A2).geo =
      (profile_attribute_writes pd lu n src now uid A).geo := by
  refine ⟨?_, ?_, ?_, ?_, ?_⟩
  · rw [writes_educations_eq, hE, writes_educations_eq,
      filter_replace_idem _ _ _ ?_]
    intro r hr
    rcases List.mem_map.mp hr with ⟨e, _he, rfl⟩
    simp [eduRowOf]
  · rw [writes_positions_eq, hP, writes_positions_eq,
      filter_replace_idem _ _ _ ?_]
    intro r hr
    rcases List.mem_map.mp hr with ⟨e, _he, rfl⟩
    simp [posRowOf]
  · rw [writes_skills_eq, hS, writes_skills_eq,
      filter_replace_idem _ _ _ ?_]
    intro r hr
    rcases List.mem_map.mp hr with ⟨e, _he, rfl⟩
    simp
  · rw [writes_honors_eq, hH, writes_honors_eq,
      filter_replace_idem _ _ _ ?_]
    intro r hr
    rcases List.mem_map.mp hr with ⟨e, _he, rfl⟩
    simp
  · rw [writes_geo_eq, hG, writes_geo_eq]
    cases hgeo : pd.geo with
    | none => rfl
    | some g =>
      apply upsertList_idem
      · simp [geoRowOf]
      · intro r hr
        rw [if_pos (of_decide_eq_true hr)]
      · intro r hr
        rw [if_neg (of_decide_eq_false hr)]

/-- Claim C7: the profile upsert is idempotent.  If a run of
`insert_profile_data` on a well-formed store (person ids pairwise distinct
and below the id counter) succeeds with user id `u` and store `db1`, then
repeating it with the same profile document succeeds with the same `u`,
leaves the People rows and the Educations, Positions, Skills, Honors and
Geo contents of `db1` unchanged (no duplication on repeat ingestion), and
in `db1` exactly one person row holds the canonical identity key. -/
theorem C7_upsert_idempotent (pd : ProfileData) (linkedin_url : String)
    (source_id : Option Nat) (now : Nat) (db : DB) (u : Nat) (db1 : DB)
    (hnodup : (db.people.map (fun p => p.user_id)).Nodup)
    (hfresh : ∀ p ∈ db.people, p.user_id < db.next_user_id)
    (h1 : insert_profile_data pd linkedin_url source_id now db =
      (Except.ok u, db1)) :
    ∃ db2 : DB,
      insert_profile_data pd linkedin_url source_id now db1 =
        (Except.ok u, db2) ∧
      db2.people = db1.people ∧
      db2.educations = db1.educations ∧
      db2.positions = db1.positions ∧
      db2.skills = db1.skills ∧
      db2.honors = db1.honors ∧
      db2.geo = db1.geo ∧
      (db1.people.filter
        (holds_key (normalize_linkedin_url linkedin_url))).length = 1 := by
  by_cases hid : truthyOpt pd.id = true
  case neg =>
    rw [insert_profile_data_no_id pd linkedin_url source_id now db
      (Bool.eq_false_iff.mpr hid)] at h1
    simp at h1
  case pos =>
  rw [insert_profile_data_with_id pd linkedin_url source_id now db hid] at h1
  cases hfind : db.people.find? (person_url_match linkedin_url
      (normalize_linkedin_url linkedin_url)) with
  | none =>
    rw [hfind] at h1
    dsimp only [Option.map] at h1
    by_cases hconf : db.people.any
        (holds_key (normalize_linkedin_url linkedin_url)) = true
    · rw [resolved_none_conflict pd linkedin_url source_id now db hconf] at h1
      simp at h1
    · have hconf' : db.people.any
          (holds_key (normalize_linkedin_url linkedin_url)) = false :=
        Bool.eq_false_iff.mpr hconf
      rw [resolved_none_free pd linkedin_url source_id now db hconf'] at h1
      injection h1 with ha hb
      injection ha with hu
      subst hu
      have hW1p : db1.people = db.people ++
          [scrapedNewPerson pd now (normalize_linkedin_url linkedin_url)
            db.next_user_id] := by
        rw [← hb, writes_people_frame]
        rfl
      have hnewmatch : person_url_match linkedin_url
          (normalize_linkedin_url linkedin_url)
          (scrapedNewPerson pd now (normalize_linkedin_url linkedin_url)
            db.next_user_id) = true := by
        simp [person_url_match, scrapedNewPerson]
      have hfind2 : db1.people.find? (person_url_match linkedin_url
          (normalize_linkedin_url linkedin_url)) =
          some (scrapedNewPerson pd now (normalize_linkedin_url linkedin_url)
            db.next_user_id) := by
        rw [hW1p, find?_append_none _ _ _ hfind,
          List.find?_cons_of_pos _ hnewmatch]
      have htaken2 : urlTakenByOther db1.people
          (normalize_linkedin_url linkedin_url) db.next_user_id = false := by
        rw [hW1p]
        unfold urlTakenByOther
        rw [Bool.eq_false_iff]
        intro hany
        rcases List.any_eq_true.mp hany with ⟨q, hq, hpq⟩
        rcases List.mem_append.mp hq with hq | hq
        · have hconj := of_decide_eq_true hpq
          have hcontra : db.people.any
              (holds_key (normalize_linkedin_url linkedin_url)) = true :=
            List.any_eq_true.mpr ⟨q, hq, decide_eq_true hconj.2⟩
          rw [hconf'] at hcontra
          exact Bool.false_ne_true hcontra
        · rw [List.mem_singleton.mp hq] at hpq
          simp [scrapedNewPerson] at hpq
      have hrun2 : insert_profile_data pd linkedin_url source_id now db1 =
          (Except.ok db.next_user_id,
           profile_attribute_writes pd linkedin_url
             (normalize_linkedin_url linkedin_url) source_id now db.next_user_id
             (acquiredUpdateDb pd now (normalize_linkedin_url linkedin_url)
               db.next_user_id db1)) := by
        rw [insert_profile_data_with_id pd linkedin_url source_id now db1 hid,
          hfind2]
        dsimp only [Option.map]
        exact resolved_some_free pd linkedin_url source_id now db.next_user_id
          db1 htaken2
      have hA2p : (acquiredUpdateDb pd now
          (normalize_linkedin_url linkedin_url) db.next_user_id db1).people =
          db1.people := by
        show db1.people.map (markScraped pd now
          (normalize_linkedin_url linkedin_url) db.next_user_id) = db1.people
        rw [hW1p, List.map_append]
        congr 1
        · have hcg : db.people.map (markScraped pd now
              (normalize_linkedin_url linkedin_url) db.next_user_id) =
              db.people.map id :=
            List.map_congr_left (fun q hq => markScraped_of_ne pd now
              (normalize_linkedin_url linkedin_url) db.next_user_id q
              (Nat.ne_of_lt (hfresh q hq)))
          rw [hcg, List.map_id]
        · rw [List.map_singleton, markScraped_of_eq pd now
            (normalize_linkedin_url linkedin_url) db.next_user_id _ rfl]
          rfl
      have hbe : db1.educations = (profile_attribute_writes pd linkedin_url
          (normalize_linkedin_url linkedin_url) source_id now db.next_user_id
          (acquiredInsertDb pd now (normalize_linkedin_url linkedin_url)
            db)).educations := by
        rw [hb]
      have hbp : db1.positions = (profile_attribute_writes pd linkedin_url
          (normalize_linkedin_url linkedin_url) source_id now db.next_user_id
          (acquiredInsertDb pd now (normalize_linkedin_url linkedin_url)
            db)).positions := by
        rw [hb]
      have hbs : db1.skills = (profile_attribute_writes pd linkedin_url
          (normalize_linkedin_url linkedin_url) source_id now db.next_user_id
          (acquiredInsertDb pd now (normalize_linkedin_url linkedin_url)
            db)).skills := by
        rw [hb]
      have hbh : db1.honors = (profile_attribute_writes pd linkedin_url
          (normalize_linkedin_url linkedin_url) source_id now db.next_user_id
          (acquiredInsertDb pd now (normalize_linkedin_url linkedin_url)
            db)).honors := by
        rw [hb]
      have hbg : db1.geo = (profile_attribute_writes pd linkedin_url
          (normalize_linkedin_url linkedin_url) source_id now db.next_user_id
          (acquiredInsertDb pd now (normalize_linkedin_url linkedin_url)
            db)).geo := by
        rw [hb]
      have htab := writes_idem_tables pd linkedin_url
        (normalize_linkedin_url linkedin_url) source_id now db.next_user_id
        (acquiredInsertDb pd now (normalize_linkedin_url linkedin_url) db)
        (acquiredUpdateDb pd now (normalize_linkedin_url linkedin_url)
          db.next_user_id db1) hbe hbp hbs hbh hbg
      rw [hb] at htab
      have hcount : (db1.people.filter
          (holds_key (normalize_linkedin_url linkedin_url))).length = 1 := by
        rw [hW1p, List.filter_append]
        have hnil : db.people.filter
            (holds_key (normalize_linkedin_url linkedin_url)) = [] := by
          rw [List.filter_eq_nil_iff]
          intro q hq hkq
          have hcontra : db.people.any
              (holds_key (normalize_linkedin_url linkedin_url)) = true :=
            List.any_eq_true.mpr ⟨q, hq, hkq⟩
          rw [hconf'] at hcontra
          exact Bool.false_ne_true hcontra
        have hkey : holds_key (normalize_linkedin_url linkedin_url)
            (scrapedNewPerson pd now (normalize_linkedin_url linkedin_url)
              db.next_user_id) = true := by
          simp [holds_key, scrapedNewPerson]
        rw [hnil, List.nil_append, List.filter_cons_of_pos hkey]
        rfl
      exact ⟨profile_attribute_writes pd linkedin_url
          (normalize_linkedin_url linkedin_url) source_id now db.next_user_id
          (acquiredUpdateDb pd now (normalize_linkedin_url linkedin_url)
            db.next_user_id db1),
        hrun2, by rw [writes_people_frame]; exact hA2p,
        htab.1, htab.2.1, htab.2.2.1, htab.2.2.2.1, htab.2.2.2.2, hcount⟩
  | some p0 =>
    rw [hfind] at h1
    dsimp only [Option.map] at h1
    by_cases htaken : urlTakenByOther db.people
        (normalize_linkedin_url linkedin_url) p0.user_id = true
    · rw [resolved_some_taken pd linkedin_url source_id now p0.user_id db
        htaken] at h1
      simp at h1
    · have htaken' : urlTakenByOther db.people
          (normalize_linkedin_url linkedin_url) p0.user_id = false :=
        Bool.eq_false_iff.mpr htaken
      rw [resolved_some_free pd linkedin_url source_id now p0.user_id db
        htaken'] at h1
      injection h1 with ha hb
      injection ha with hu
      subst hu
      have hp0mem : p0 ∈ db.people := List.mem_of_find?_eq_some hfind
      have hp0pr : person_url_match linkedin_url
          (normalize_linkedin_url linkedin_url) p0 = true :=
        List.find?_some hfind
      have hx : person_url_match linkedin_url
          (normalize_linkedin_url linkedin_url)
          (markScraped pd now (normalize_linkedin_url linkedin_url)
            p0.user_id p0) = true := by
        rw [markScraped_of_eq pd now (normalize_linkedin_url linkedin_url)
          p0.user_id p0 rfl]
        simp [person_url_match, scrapedNewPerson]
      have hmiss : ∀ y ∈ db.people, person_url_match linkedin_url
          (normalize_linkedin_url linkedin_url) y = false →
          person_url_match linkedin_url (normalize_linkedin_url linkedin_url)
            (markScraped pd now (normalize_linkedin_url linkedin_url)
              p0.user_id y) = false := by
        intro y hy hpy
        by_cases hyid : y.user_id = p0.user_id
        · have hy_eq : y = p0 :=
            List.inj_on_of_nodup_map hnodup hy hp0mem hyid
          rw [hy_eq, hp0pr] at hpy
          exact absurd hpy (by simp)
        · rw [markScraped_of_ne pd now (normalize_linkedin_url linkedin_url)
            p0.user_id y hyid]
          exact hpy
      have hW1p : db1.people = db.people.map (markScraped pd now
          (normalize_linkedin_url linkedin_url) p0.user_id) := by
        rw [← hb, writes_people_frame]
        rfl
      have hfind2 : db1.people.find? (person_url_match linkedin_url
          (normalize_linkedin_url linkedin_url)) =
          some (markScraped pd now (normalize_linkedin_url linkedin_url)
            p0.user_id p0) := by
        rw [hW1p]
        exact find?_map_of_find? db.people _ _ p0 hfind hx hmiss
      have htaken2 : urlTakenByOther db1.people
          (normalize_linkedin_url linkedin_url) p0.user_id = false := by
        rw [hW1p]
        unfold urlTakenByOther
        rw [Bool.eq_false_iff]
        intro hany
        rcases List.any_eq_true.mp hany with ⟨q', hq', hpq'⟩
        rcases List.mem_map.mp hq' with ⟨q, hq, rfl⟩
        by_cases hqid : q.user_id = p0.user_id
        · rw [markScraped_of_eq pd now (normalize_linkedin_url linkedin_url)
            p0.user_id q hqid] at hpq'
          simp [scrapedNewPerson, hqid] at hpq'
        · rw [markScraped_of_ne pd now (normalize_linkedin_url linkedin_url)
            p0.user_id q hqid] at hpq'
          have hcontra : urlTakenByOther db.people
              (normalize_linkedin_url linkedin_url) p0.user_id = true := by
            unfold urlTakenByOther
            exact List.any_eq_true.mpr ⟨q, hq, hpq'⟩
          rw [htaken'] at hcontra
          exact Bool.false_ne_true hcontra
      have hup : (markScraped pd now (normalize_linkedin_url linkedin_url)
          p0.user_id p0).user_id = p0.user_id :=
        markScraped_user_id pd now (normalize_linkedin_url linkedin_url)
          p0.user_id p0
      have hrun2 : insert_profile_data pd linkedin_url source_id now db1 =
          (Except.ok p0.user_id,
           profile_attribute_writes pd linkedin_url
             (normalize_linkedin_url linkedin_url) source_id now p0.user_id
             (acquiredUpdateDb pd now (normalize_linkedin_url linkedin_url)
               p0.user_id db1)) := by
        rw [insert_profile_data_with_id pd linkedin_url source_id now db1 hid,
          hfind2]
        dsimp only [Option.map]
        rw [hup]
        exact resolved_some_free pd linkedin_url source_id now p0.user_id db1
          htaken2
      have hA2p : (acquiredUpdateDb pd now
          (normalize_linkedin_url linkedin_url) p0.user_id db1).people =
          db1.people := by
        show db1.people.map (markScraped pd now
          (normalize_linkedin_url linkedin_url) p0.user_id) = db1.people
        rw [hW1p, List.map_map]
        apply List.map_congr_left
        intro q _hq
        exact markScraped_idem pd now (normalize_linkedin_url linkedin_url)
          p0.user_id q
      have hbe : db1.educations = (profile_attribute_writes pd linkedin_url
          (normalize_linkedin_url linkedin_url) source_id now p0.user_id
          (acquiredUpdateDb pd now (normalize_linkedin_url linkedin_url)
            p0.user_id db)).educations := by
        rw [hb]
      have hbp : db1.positions = (profile_attribute_writes pd linkedin_url
          (normalize_linkedin_url linkedin_url) source_id now p0.user_id
          (acquiredUpdateDb pd now (normalize_linkedin_url linkedin_url)
            p0.user_id db)).positions := by
        rw [hb]
      have hbs : db1.skills = (profile_attribute_writes pd linkedin_url
          (normalize_linkedin_url linkedin_url) source_id now p0.user_id
          (acquiredUpdateDb pd now (normalize_linkedin_url linkedin_url)
            p0.user_id db)).skills := by
        rw [hb]
      have hbh : db1.honors = (profile_attribute_writes pd linkedin_url
          (normalize_linkedin_url linkedin_url) source_id now p0.user_id
          (acquiredUpdateDb pd now (normalize_linkedin_url linkedin_url)
            p0.user_id db)).honors := by
        rw [hb]
      have hbg : db1.geo = (profile_attribute_writes pd linkedin_url
          (normalize_linkedin_url linkedin_url) source_id now p0.user_id
          (acquiredUpdateDb pd now (normalize_linkedin_url linkedin_url)
            p0.user_id db)).geo := by
        rw [hb]
      have htab := writes_idem_tables pd linkedin_url
        (normalize_linkedin_url linkedin_url) source_id now p0.user_id
        (acquiredUpdateDb pd now (normalize_linkedin_url linkedin_url)
          p0.user_id db)
        (acquiredUpdateDb pd now (normalize_linkedin_url linkedin_url)
          p0.user_id db1) hbe hbp hbs hbh hbg
      rw [hb] at htab
      have hcount : (db1.people.filter
          (holds_key (normalize_linkedin_url linkedin_url))).length = 1 := by
        rw [hW1p, ← List.countP_eq_length_filter, List.countP_map]
        have hcg : db.people.countP (holds_key
            (normalize_linkedin_url linkedin_url) ∘ markScraped pd now
            (normalize_linkedin_url linkedin_url) p0.user_id) =
            db.people.countP (fun q => decide (q.user_id = p0.user_id)) := by
          apply List.countP_congr
          intro q hq
          constructor
          · intro hqk
            by_cases hqid : q.user_id = p0.user_id
            · exact decide_eq_true hqid
            · exfalso
              rw [show (holds_key (normalize_linkedin_url linkedin_url) ∘
                  markScraped pd now (normalize_linkedin_url linkedin_url)
                    p0.user_id) q = holds_key
                  (normalize_linkedin_url linkedin_url)
                  (markScraped pd now (normalize_linkedin_url linkedin_url)
                    p0.user_id q) from rfl,
                markScraped_of_ne pd now (normalize_linkedin_url linkedin_url)
                  p0.user_id q hqid] at hqk
              have hcanon := of_decide_eq_true hqk
              have hcontra : urlTakenByOther db.people
                  (normalize_linkedin_url linkedin_url) p0.user_id = true := by
                unfold urlTakenByOther
                exact List.any_eq_true.mpr
                  ⟨q, hq, decide_eq_true ⟨hqid, hcanon⟩⟩
              rw [htaken'] at hcontra
              exact Bool.false_ne_true hcontra
          · intro hqid'
            have hqid : q.user_id = p0.user_id := of_decide_eq_true hqid'
            show holds_key (normalize_linkedin_url linkedin_url)
              (markScraped pd now (normalize_linkedin_url linkedin_url)
                p0.user_id q) = true
            rw [markScraped_of_eq pd now (normalize_linkedin_url linkedin_url)
              p0.user_id q hqid]
            simp [holds_key, scrapedNewPerson]
        rw [hcg]
        exact countP_key_eq_one (fun p => p.user_id) db.people p0 hnodup hp0mem
      exact ⟨profile_attribute_writes pd linkedin_url
          (normalize_linkedin_url linkedin_url) source_id now p0.user_id
          (acquiredUpdateDb pd now (normalize_linkedin_url linkedin_url)
            p0.user_id db1),
        hrun2, by rw [writes_people_frame]; exact hA2p,
        htab.1, htab.2.1, htab.2.2.1, htab.2.2.2.1, htab.2.2.2.2, hcount⟩

/-- Concrete profile document for the idempotence witness. -/
def c7Pd : ProfileData :=
  { id := some "p1", firstName := some "Ada",
    educations := [{ schoolName := some "X" }],
    position := [{ title := some "Eng" }],
    skills := [{ name := some "Lean" }],
    honors := [{ title := some "Award" }] }

/-- Empty store for the idempotence witness. -/
def c7Db : DB := {}

/-- The store left by the first run of the idempotence witness. -/
def c7Db1 : DB :=
  (insert_profile_data c7Pd "linkedin.com/in/ada" (some 2) 7 c7Db).2

/-- Witness for `C7_upsert_idempotent`: a concrete first run on the empty
store, repeated. -/
theorem C7_upsert_idempotent_witness :
    ∃ db2 : DB,
      insert_profile_data c7Pd "linkedin.com/in/ada" (some 2) 7 c7Db1 =
        (Except.ok 1, db2) ∧
      db2.people = c7Db1.people ∧
      db2.educations = c7Db1.educations ∧
      db2.positions = c7Db1.positions ∧
      db2.skills = c7Db1.skills ∧
      db2.honors = c7Db1.honors ∧
      db2.geo = c7Db1.geo ∧
      (c7Db1.people.filter
        (holds_key (normalize_linkedin_url "linkedin.com/in/ada"))).length = 1 :=
  C7_upsert_idempotent c7Pd "linkedin.com/in/ada" (some 2) 7 c7Db 1 c7Db1
    (by decide) (by decide) rfl

end TalentMap
